import Mathlib

/-!
Shallow embedding of the subscription/payment reconciliation core of the
ghostsnap backend (plan policy service, trial service, and the two webhook
controller variants), together with proofs of the spec's testable
properties.  JavaScript objects are modelled as Lean structures; fields a
JS object literal does not carry (reads of which yield `undefined`) are
modelled as `Option` fields holding `none`.  Mongoose unique-key indexes
(`stripeSubscriptionId` on Subscription, `stripePaymentIntentId` on
Payment) make `create` fail with a duplicate-key error when a row with the
same key exists; this is the only persistence failure modelled, matching
the deterministic part of the source's error handling.  Timestamps are
milliseconds since epoch (`Int`); Stripe payloads carry unix seconds.
-/

namespace Ghostsnap

/-- Subscription status vocabulary, from models/Subscription.js. -/
inductive SubStatus
| incomplete
| incompleteExpired
| trialing
| active
| pastDue
| canceled
| unpaid
deriving DecidableEq, Repr

/-- subscriptionType vocabulary, from models/Subscription.js. -/
inductive SubType
| initial
| recurring
deriving DecidableEq, Repr

/-- Card details object built by the webhook controllers. -/
structure CardDetails where
  brand : Option String
  last4 : Option String
  expMonth : Option Nat
  expYear : Option Nat
  funding : Option String
  country : Option String
deriving DecidableEq, Repr

/-- The slice of the User model the core touches. -/
structure UserRec where
  id : Nat
  hasEverSubscribed : Bool
deriving DecidableEq, Repr

/-- A Subscription row, from models/Subscription.js. -/
structure SubRec where
  id : Nat
  userId : Nat
  stripeSubscriptionId : String
  stripeCustomerId : String
  stripePriceId : String
  status : SubStatus
  currentPeriodStart : Int
  currentPeriodEnd : Int
  trialStart : Option Int
  trialEnd : Option Int
  canceledAt : Option Int
  cancelAtPeriodEnd : Bool
  isFirstSubscription : Bool
  subscriptionType : SubType
  amount : Nat
  currency : String
  interval : Option String
  intervalCount : Nat
deriving DecidableEq, Repr

/-- A Payment row, from the Payment model (unique on stripePaymentIntentId). -/
structure PaymentRec where
  userId : Nat
  subscriptionId : Nat
  stripePaymentIntentId : String
  stripeInvoiceId : Option String
  amount : Nat
  currency : String
  status : String
  paymentMethod : Option String
  cardDetails : Option CardDetails
  paymentType : String
  description : String
  receiptUrl : Option String
  failureReason : Option String
  refunded : Bool
  refundAmount : Nat
deriving DecidableEq, Repr

/-- A SubscriptionPlan row, from models/SubscriptionPlan.js. -/
structure PlanRec where
  name : String
  planType : SubType
  stripePriceId : String
  amount : Nat
  currency : String
  interval : Option String
  intervalCount : Nat
  isActive : Bool
deriving DecidableEq, Repr

/-- The persisted state the core reads and writes. -/
structure DB where
  users : List UserRec
  subs : List SubRec
  payments : List PaymentRec
  plans : List PlanRec
deriving DecidableEq, Repr

/-- SubscriptionPlan.getRecurringPlan: findOne planType recurring, isActive. -/
def getRecurringPlan (db : DB) : Option PlanRec :=
  db.plans.find? (fun p => p.planType = SubType.recurring && p.isActive)

/-- User.findById. -/
def findUserById (db : DB) (uid : Nat) : Option UserRec :=
  db.users.find? (fun u => u.id = uid)

/-- Subscription.findOne by stripeSubscriptionId. -/
def findSubByStripeId (db : DB) (sid : String) : Option SubRec :=
  db.subs.find? (fun s => s.stripeSubscriptionId = sid)

/-- Payment.findOne by stripePaymentIntentId. -/
def findPaymentByIntentId (db : DB) (pid : String) : Option PaymentRec :=
  db.payments.find? (fun p => p.stripePaymentIntentId = pid)

/-- Persist a change to the one user row with the given id (user.save()). -/
def updateUser (db : DB) (uid : Nat) (f : UserRec → UserRec) : DB :=
  { db with users := db.users.map (fun u => if u.id = uid then f u else u) }

/-- Persist a change to the one subscription row with the given local id. -/
def updateSubById (db : DB) (sid : Nat) (f : SubRec → SubRec) : DB :=
  { db with subs := db.subs.map (fun s => if s.id = sid then f s else s) }

/-- Persist a change to the one subscription row with the given stripe id. -/
def updateSubByStripeId (db : DB) (sid : String) (f : SubRec → SubRec) : DB :=
  { db with subs :=
      db.subs.map (fun s => if s.stripeSubscriptionId = sid then f s else s) }

/-- Persist a change to the one payment row with the given intent id. -/
def updatePayment (db : DB) (pid : String) (f : PaymentRec → PaymentRec) : DB :=
  { db with payments :=
      db.payments.map (fun p => if p.stripePaymentIntentId = pid then f p else p) }

/-- Payment.create: the unique index on stripePaymentIntentId turns a
duplicate into an E11000 error (modelled as `Except.error`). -/
def paymentCreate (db : DB) (p : PaymentRec) : Except Unit DB :=
  if db.payments.any (fun q => q.stripePaymentIntentId = p.stripePaymentIntentId) then
    Except.error ()
  else
    Except.ok { db with payments := db.payments ++ [p] }

/-- Subscription.create: unique index on stripeSubscriptionId. -/
def subCreate (db : DB) (s : SubRec) : Except Unit DB :=
  if db.subs.any (fun q => q.stripeSubscriptionId = s.stripeSubscriptionId) then
    Except.error ()
  else
    Except.ok { db with subs := db.subs ++ [s] }

/-! ## Plan policy service (getRecommendedPlan) -/

/-- The object literal returned by getRecommendedPlan.  `subscription` and
`skipInitial` are present only on the branches that set them. -/
structure PlanDecision where
  planType : String
  reason : String
  skipInitial : Option Bool
  subscription : Option SubRec
deriving DecidableEq, Repr

/-- The active-subscription query of getRecommendedPlan:
Subscription.findOne user, status in [active, trialing]. -/
def findActiveSubscription (db : DB) (uid : Nat) : Option SubRec :=
  db.subs.find? (fun s =>
    s.userId = uid &&
      (s.status = SubStatus.active || s.status = SubStatus.trialing))

/-- The any-history query of getRecommendedPlan: Subscription.findOne user. -/
def findAnySubscription (db : DB) (uid : Nat) : Option SubRec :=
  db.subs.find? (fun s => s.userId = uid)

/-- getRecommendedPlan from the plan service, with the two history lookups
passed as `Except` results so that a failing lookup (which the source
catches, falling back to the initial plan) is representable.  The queries
run in source order inside one try block, so a failure of either reaches
the same catch. -/
def getRecommendedPlan (hasEverSubscribed : Bool)
    (activeQ : Except Unit (Option SubRec))
    (anyQ : Except Unit (Option SubRec)) : PlanDecision :=
  match activeQ with
  | Except.error _ =>
      { planType := "initial", reason := "error_fallback",
        skipInitial := some false, subscription := none }
  | Except.ok activeSub =>
    match activeSub with
    | some s =>
        { planType := "existing", reason := "user_has_active_subscription",
          skipInitial := none, subscription := some s }
    | none =>
      match anyQ with
      | Except.error _ =>
          { planType := "initial", reason := "error_fallback",
            skipInitial := some false, subscription := none }
      | Except.ok anySub =>
          if anySub.isSome || hasEverSubscribed then
            { planType := "recurring", reason := "returning_user",
              skipInitial := some true, subscription := none }
          else
            { planType := "initial", reason := "new_user",
              skipInitial := some false, subscription := none }

/-- getRecommendedPlan with both lookups answered from the database
(the non-failing execution). -/
def decidePlanForUser (db : DB) (u : UserRec) : PlanDecision :=
  getRecommendedPlan u.hasEverSubscribed
    (Except.ok (findActiveSubscription db u.id))
    (Except.ok (findAnySubscription db u.id))

/-! ## Trial service (checkTrialStatus, upgrade, shouldChargeUser) -/

/-- Result of the trial service's own upgradeToRecurringSubscription. -/
structure UpgradeResult where
  success : Bool
  newAmount : Option Nat
  newInterval : Option String
deriving DecidableEq, Repr

/-- upgradeToRecurringSubscription from the trial service.  It loads the
recurring plan and commits the local row (type recurring, new price and
amount, isFirstSubscription false, trial fields nulled); it makes no
provider call, so the returned trace of remote price swaps is always
empty.  A missing recurring plan is thrown and caught locally, returning
success false with the row unmutated. -/
def upgradeToRecurringSubscriptionTrial (db : DB) (s : SubRec) :
    UpgradeResult × DB × List (String × String) :=
  match getRecurringPlan db with
  | none => (⟨false, none, none⟩, db, [])
  | some rp =>
      let db' := updateSubById db s.id (fun t =>
        { t with
          subscriptionType := SubType.recurring
          stripePriceId := rp.stripePriceId
          amount := rp.amount
          interval := rp.interval
          isFirstSubscription := false
          trialStart := none
          trialEnd := none })
      (⟨true, some rp.amount, rp.interval⟩, db', [])

/-- The object literal returned by checkTrialStatus.  No branch of the
source writes a `trialEnd` key, so reading it always yields undefined
(`none` here). -/
structure TrialStatus where
  isInTrial : Bool
  shouldCharge : Bool
  action : String
  upgradeResult : Option UpgradeResult
  trialEnd : Option Int
deriving DecidableEq, Repr

/-- checkTrialStatus from the trial service: find the user's initial-type
active/trialing subscription, compare now against its trialEnd, and on an
ended trial either report an existing recurring subscription or perform
the (local-only) upgrade. -/
def checkTrialStatus (db : DB) (uid : Nat) (now : Int) : TrialStatus × DB :=
  match db.subs.find? (fun s =>
      s.userId = uid && s.subscriptionType = SubType.initial &&
        (s.status = SubStatus.active || s.status = SubStatus.trialing)) with
  | none => (⟨false, false, "none", none, none⟩, db)
  | some initialSub =>
    match initialSub.trialEnd with
    | none => (⟨false, false, "none", none, none⟩, db)
    | some te =>
      if now < te then
        (⟨true, false, "trial_active", none, none⟩, db)
      else
        match db.subs.find? (fun s =>
            s.userId = uid && s.subscriptionType = SubType.recurring &&
              (s.status = SubStatus.active || s.status = SubStatus.trialing)) with
        | some _ => (⟨false, false, "already_recurring", none, none⟩, db)
        | none =>
            let r := upgradeToRecurringSubscriptionTrial db initialSub
            (⟨false, true, "upgraded_to_recurring", some r.1, none⟩, r.2.1)

/-- The object literal returned by shouldChargeUser. -/
structure ChargeDecision where
  shouldCharge : Bool
  reason : String
  subscription : Option UpgradeResult
  trialEnd : Option Int
deriving DecidableEq, Repr

/-- shouldChargeUser from the trial service: wraps checkTrialStatus and
reshapes its result.  The in-trial branch copies trialStatus.trialEnd,
which checkTrialStatus never sets. -/
def shouldChargeUser (db : DB) (uid : Nat) (now : Int) : ChargeDecision × DB :=
  let r := checkTrialStatus db uid now
  let ts := r.1
  if ts.shouldCharge then
    (⟨true, "trial_ended", ts.upgradeResult, none⟩, r.2)
  else if ts.isInTrial then
    (⟨false, "in_trial", none, ts.trialEnd⟩, r.2)
  else
    (⟨false, ts.action, none, none⟩, r.2)

/-! ## Stripe payloads and the provider environment -/

/-- Webhook metadata carried on checkout sessions and subscriptions.  The
string flags isFirstSubscription and isReturningUser are compared against
the literal true in the source; the comparison result is what matters, so
they are Booleans here. -/
structure Metadata where
  userId : Option Nat
  planType : SubType
  isFirstSubscription : Bool
  isReturningUser : Bool
  subscriptionId : Option Nat
  paymentType : Option String
deriving DecidableEq, Repr

/-- event.data.object for checkout.session.completed. -/
structure SessionPayload where
  id : String
  metadata : Metadata
deriving DecidableEq, Repr

/-- event.data.object for the customer.subscription.* events.  Unix-second
fields that Stripe may omit (or send as non-positive / non-numeric, which
toDateFromUnix maps to null) are Options of positive seconds. -/
structure StripeSubPayload where
  id : String
  customer : String
  priceId : String
  itemId : String
  status : Option SubStatus
  currentPeriodStartSec : Option Nat
  currentPeriodEndSec : Option Nat
  trialStartSec : Option Nat
  trialEndSec : Option Nat
  cancelAtPeriodEnd : Bool
  canceledAtSec : Option Nat
  metadata : Metadata
deriving DecidableEq, Repr

/-- event.data.object for invoice.payment_succeeded / payment_failed. -/
structure InvoicePayload where
  id : String
  subscription : Option String
  billingReason : Option String
  paymentIntent : Option String
  charge : Option String
  amountPaid : Option Nat
  amountDue : Option Nat
  currency : Option String
  lastFinalizationErrorMessage : Option String
deriving DecidableEq, Repr

/-- event.data.object for payment_intent.succeeded. -/
structure PaymentIntentPayload where
  id : String
  amount : Nat
  currency : String
  status : String
  invoice : Option String
  customer : Option String
  metadata : Metadata
  firstChargeReceiptUrl : Option String
deriving DecidableEq, Repr

/-- A payment method as returned by a payment-intent retrieval with
payment_method expanded. -/
structure PaymentMethodObj where
  id : String
  pmType : String
  card : Option CardDetails
deriving DecidableEq, Repr

/-- A retrieved payment intent (stripe.paymentIntents.retrieve). -/
structure RetrievedIntent where
  id : String
  paymentMethod : Option PaymentMethodObj
deriving DecidableEq, Repr

/-- A retrieved charge (stripe.charges.retrieve). -/
structure RetrievedCharge where
  id : String
  paymentIntent : Option String
deriving DecidableEq, Repr

/-- A retrieved invoice (stripe.invoices.retrieve). -/
structure RetrievedInvoice where
  id : String
  subscription : Option String
deriving DecidableEq, Repr

/-- The provider: each retrieval returns none when the call fails, and
updateSubscriptionOk tells whether a price-swap update call succeeds. -/
structure StripeEnv where
  retrieveIntent : String → Option RetrievedIntent
  retrieveCharge : String → Option RetrievedCharge
  retrieveInvoice : String → Option RetrievedInvoice
  retrieveSubscription : String → Option StripeSubPayload
  updateSubscriptionOk : String → Bool

/-- toDateFromUnix: non-positive or missing seconds give null, otherwise
milliseconds since epoch. -/
def toDateFromUnix : Option Nat → Option Int
  | none => none
  | some n => if n = 0 then none else some ((n : Int) * 1000)

/-- ensureStripeSubscription: keep the payload when both period bounds are
usable, otherwise re-retrieve from Stripe, falling back to the payload if
the retrieval fails. -/
def ensureStripeSubscription (env : StripeEnv) (p : StripeSubPayload) :
    StripeSubPayload :=
  if (toDateFromUnix p.currentPeriodStartSec).isSome &&
      (toDateFromUnix p.currentPeriodEndSec).isSome then p
  else
    match env.retrieveSubscription p.id with
    | some full => full
    | none => p

/-- getInvoicePaymentIntentId: the invoice's payment_intent, else the
payment_intent of its charge (a failed charge retrieval leaves it null). -/
def getInvoicePaymentIntentId (env : StripeEnv) (inv : InvoicePayload) :
    Option String :=
  match inv.paymentIntent with
  | some pid => some pid
  | none =>
    match inv.charge with
    | none => none
    | some ch =>
      match env.retrieveCharge ch with
      | none => none
      | some c => c.paymentIntent

/-- extractCardDetailsFromPaymentIntent (part_013 variant): retrieve the
intent with its payment method expanded; a failed retrieval or a missing
method gives nothing, a non-card method gives only the method id. -/
def extractCardDetailsFromPaymentIntent (env : StripeEnv) (pid : String) :
    Option CardDetails × Option String :=
  match env.retrieveIntent pid with
  | none => (none, none)
  | some intent =>
    match intent.paymentMethod with
    | none => (none, none)
    | some pm =>
      if pm.pmType = "card" then
        match pm.card with
        | some card => (some card, some pm.id)
        | none => (none, some pm.id)
      else (none, some pm.id)

/-- shouldUpgradeToRecurring, the Subscription model method used by the
invoice handler's trailing upgrade check. -/
def shouldUpgradeToRecurring (s : SubRec) (now : Int) : Bool :=
  s.isFirstSubscription && s.subscriptionType = SubType.initial &&
    (match s.trialEnd with
     | none => false
     | some te => now ≥ te)

/-! ## Webhook handlers (part_013 variant unless suffixed V14) -/

/-- upgradeToRecurringSubscription from the webhook controllers (identical
in both variants): retrieve the remote subscription, swap its item to the
recurring price, then commit the local row (type recurring, new price and
amount, isFirstSubscription false; trial fields are left as they are).
Any failure is caught and logged, mutating nothing and reporting nothing;
the returned trace lists the remote price swaps performed. -/
def upgradeToRecurringSubscriptionWebhook (env : StripeEnv) (s : SubRec)
    (db : DB) : DB × List (String × String) :=
  match getRecurringPlan db with
  | none => (db, [])
  | some rp =>
    match env.retrieveSubscription s.stripeSubscriptionId with
    | none => (db, [])
    | some _ =>
      if env.updateSubscriptionOk s.stripeSubscriptionId then
        (updateSubById db s.id (fun t =>
          { t with
            stripePriceId := rp.stripePriceId
            subscriptionType := SubType.recurring
            amount := rp.amount
            isFirstSubscription := false }),
         [(s.stripeSubscriptionId, rp.stripePriceId)])
      else (db, [])

/-- handleCheckoutSessionCompleted: resolve the user from session metadata
and set hasEverSubscribed when the checkout was a first subscription. -/
def handleCheckoutSessionCompleted (session : SessionPayload) (db : DB) : DB :=
  match session.metadata.userId with
  | none => db
  | some uid =>
    match findUserById db uid with
    | none => db
    | some _ =>
      if session.metadata.isFirstSubscription then
        updateUser db uid (fun u => { u with hasEverSubscribed := true })
      else db

/-- handleSubscriptionCreated (part_013 variant): resolve user and plan,
derive period bounds (defaulting to now / now plus one week) and trial
bounds from the provider object, and create the row.  The provider's
trial timestamps are stored unchanged whether or not the user is
returning.  A failing create (duplicate id, or a payload with no status,
which the schema's required status rejects) is rethrown. -/
def handleSubscriptionCreated (env : StripeEnv) (now : Int)
    (p : StripeSubPayload) (db : DB) : Except Unit DB :=
  match p.metadata.userId with
  | none => Except.ok db
  | some uid =>
    match findUserById db uid with
    | none => Except.ok db
    | some _ =>
      match db.plans.find? (fun pl => pl.stripePriceId = p.priceId) with
      | none => Except.ok db
      | some plan =>
        match p.status with
        | none => Except.error ()
        | some st =>
          let full := ensureStripeSubscription env p
          let cps := (toDateFromUnix full.currentPeriodStartSec).getD now
          let cpe := (toDateFromUnix full.currentPeriodEndSec).getD
            (now + 7 * 24 * 60 * 60 * 1000)
          subCreate db
            { id := db.subs.length
              userId := uid
              stripeSubscriptionId := p.id
              stripeCustomerId := p.customer
              stripePriceId := plan.stripePriceId
              status := st
              currentPeriodStart := cps
              currentPeriodEnd := cpe
              trialStart := toDateFromUnix full.trialStartSec
              trialEnd := toDateFromUnix full.trialEndSec
              canceledAt := none
              cancelAtPeriodEnd := false
              isFirstSubscription := p.metadata.isFirstSubscription
              subscriptionType := p.metadata.planType
              amount := plan.amount
              currency := plan.currency
              interval := some (plan.interval.getD "week")
              intervalCount := plan.intervalCount }

/-- handleSubscriptionCreated (part_014 variant): as part_013, but trial
fields are forced to null when the metadata marks a returning user, the
interval is taken from the plan without a default, and a returning user
without the hasEverSubscribed flag gets it set after the create. -/
def handleSubscriptionCreatedV14 (env : StripeEnv) (now : Int)
    (p : StripeSubPayload) (db : DB) : Except Unit DB :=
  match p.metadata.userId with
  | none => Except.ok db
  | some uid =>
    match findUserById db uid with
    | none => Except.ok db
    | some user =>
      match db.plans.find? (fun pl => pl.stripePriceId = p.priceId) with
      | none => Except.ok db
      | some plan =>
        match p.status with
        | none => Except.error ()
        | some st =>
          let full := ensureStripeSubscription env p
          let cps := (toDateFromUnix full.currentPeriodStartSec).getD now
          let cpe := (toDateFromUnix full.currentPeriodEndSec).getD
            (now + 7 * 24 * 60 * 60 * 1000)
          let trialStart :=
            if p.metadata.isReturningUser then none
            else toDateFromUnix full.trialStartSec
          let trialEnd :=
            if p.metadata.isReturningUser then none
            else toDateFromUnix full.trialEndSec
          match subCreate db
            { id := db.subs.length
              userId := uid
              stripeSubscriptionId := p.id
              stripeCustomerId := p.customer
              stripePriceId := plan.stripePriceId
              status := st
              currentPeriodStart := cps
              currentPeriodEnd := cpe
              trialStart := trialStart
              trialEnd := trialEnd
              canceledAt := none
              cancelAtPeriodEnd := false
              isFirstSubscription := p.metadata.isFirstSubscription
              subscriptionType := p.metadata.planType
              amount := plan.amount
              currency := plan.currency
              interval := plan.interval
              intervalCount := plan.intervalCount } with
          | Except.error e => Except.error e
          | Except.ok db' =>
            if p.metadata.isReturningUser && !user.hasEverSubscribed then
              Except.ok (updateUser db' uid
                (fun u => { u with hasEverSubscribed := true }))
            else Except.ok db'

/-- The row mutation of handleSubscriptionUpdated (textually identical in
both controller variants): when the stored row is still initial-typed and
the provider reports the recurring plan's price on an active
subscription, flip it to recurring; then refresh status, period bounds
(falling back to stored values), cancelAtPeriodEnd and canceledAt. -/
def updatedRowFn (sub : SubRec) (rp : PlanRec) (full p : StripeSubPayload)
    (t : SubRec) : SubRec :=
  let t1 :=
    if sub.subscriptionType = SubType.initial &&
        p.priceId = rp.stripePriceId && p.status = some SubStatus.active then
      { t with
        subscriptionType := SubType.recurring
        stripePriceId := rp.stripePriceId
        amount := rp.amount
        isFirstSubscription := false }
    else t
  { t1 with
    status := (full.status).getD sub.status
    currentPeriodStart :=
      (toDateFromUnix full.currentPeriodStartSec).getD sub.currentPeriodStart
    currentPeriodEnd :=
      (toDateFromUnix full.currentPeriodEndSec).getD sub.currentPeriodEnd
    cancelAtPeriodEnd := p.cancelAtPeriodEnd
    canceledAt :=
      match toDateFromUnix full.canceledAtSec with
      | some c => some c
      | none => t1.canceledAt }

/-- handleSubscriptionUpdated: find the local row and save `updatedRowFn`
onto it.  A missing recurring plan makes the price comparison throw
before anything is saved. -/
def handleSubscriptionUpdated (env : StripeEnv) (_now : Int)
    (p : StripeSubPayload) (db : DB) : Except Unit DB :=
  match findSubByStripeId db p.id with
  | none => Except.ok db
  | some sub =>
    match getRecurringPlan db with
    | none => Except.error ()
    | some rp =>
      Except.ok (updateSubByStripeId db p.id
        (updatedRowFn sub rp (ensureStripeSubscription env p) p))

/-- handleSubscriptionDeleted (part_013 variant): mark the local row
canceled and stamp canceledAt; the owning user is not touched. -/
def handleSubscriptionDeleted (now : Int) (p : StripeSubPayload) (db : DB) :
    DB :=
  match findSubByStripeId db p.id with
  | none => db
  | some _ =>
    updateSubByStripeId db p.id (fun t =>
      { t with status := SubStatus.canceled, canceledAt := some now })

/-- handleSubscriptionDeleted (part_014 variant): as part_013, and then
set hasEverSubscribed on the owning user when not already set. -/
def handleSubscriptionDeletedV14 (now : Int) (p : StripeSubPayload) (db : DB) :
    DB :=
  match findSubByStripeId db p.id with
  | none => db
  | some sub =>
    let db' := updateSubByStripeId db p.id (fun t =>
      { t with status := SubStatus.canceled, canceledAt := some now })
    match findUserById db' sub.userId with
    | none => db'
    | some user =>
      if !user.hasEverSubscribed then
        updateUser db' sub.userId (fun u => { u with hasEverSubscribed := true })
      else db'

/-- The JavaScript a || b || 0 chain over possibly-missing amounts. -/
def orAmount (a : Option Nat) (d : Nat) : Nat :=
  match a with
  | none => d
  | some n => if n = 0 then d else n

/-- The payment type classification of handleInvoicePaymentSucceeded. -/
def classifyPaymentType (inv : InvoicePayload) (sub : SubRec) : String :=
  if inv.billingReason = some "subscription_create" then
    if sub.subscriptionType = SubType.initial then "initial_payment"
    else "recurring_payment"
  else if inv.billingReason = some "subscription_update" then "upgrade_payment"
  else "recurring_payment"

/-- The Payment row handleInvoicePaymentSucceeded creates (identical
shape under the real intent id and under the synthetic fallback id):
amount and status from the invoice, no card details yet. -/
def invoiceRow (inv : InvoicePayload) (sub : SubRec) (pid : String)
    (paymentType : String) : PaymentRec :=
  { userId := sub.userId
    subscriptionId := sub.id
    stripePaymentIntentId := pid
    stripeInvoiceId := some inv.id
    amount := orAmount inv.amountPaid (orAmount inv.amountDue 0)
    currency := inv.currency.getD "eur"
    status := "succeeded"
    paymentMethod := none
    cardDetails := none
    paymentType := paymentType
    description := "Payment for subscription"
    receiptUrl := none
    failureReason := none
    refunded := false
    refundAmount := 0 }

/-- handleInvoicePaymentSucceeded (part_013 variant): resolve the owning
subscription, classify the payment type, resolve a payment-intent id (or
fall back to a synthetic invoice-derived id), and create the Payment with
amount and status but no card details; an existing row only gets its
invoice id backfilled, and a duplicate-key error on create is treated as
success.  After a fresh create under the real intent id, the trailing
trial-upgrade check may run the webhook upgrade. -/
def handleInvoicePaymentSucceeded (env : StripeEnv) (now : Int)
    (inv : InvoicePayload) (db : DB) : DB :=
  match inv.subscription with
  | none => db
  | some sid =>
    match findSubByStripeId db sid with
    | none => db
    | some sub =>
      let paymentType := classifyPaymentType inv sub
      match getInvoicePaymentIntentId env inv with
      | none =>
        let fallbackId := "invoice_" ++ inv.id
        match findPaymentByIntentId db fallbackId with
        | some _ => db
        | none =>
          match paymentCreate db (invoiceRow inv sub fallbackId paymentType) with
          | Except.error _ => db
          | Except.ok db' => db'
      | some pid =>
        match findPaymentByIntentId db pid with
        | some existing =>
          if existing.stripeInvoiceId = none then
            updatePayment db pid (fun q => { q with stripeInvoiceId := some inv.id })
          else db
        | none =>
          let db' :=
            match paymentCreate db (invoiceRow inv sub pid paymentType) with
            | Except.error _ => db
            | Except.ok d => d
          if shouldUpgradeToRecurring sub now then
            (upgradeToRecurringSubscriptionWebhook env sub db').1
          else db'

/-- The field-level backfill handlePaymentIntentSucceeded saves onto an
existing Payment row: card details, method and receipt url only when not
already set, amount only when zero, and the status overwritten whenever
the event's status differs. -/
def backfillPaymentFn (cardDetails : Option CardDetails)
    (paymentMethodId : Option String) (pi : PaymentIntentPayload)
    (payment t : PaymentRec) : PaymentRec :=
  { t with
    cardDetails :=
      match cardDetails, payment.cardDetails with
      | some cd, none => some cd
      | _, _ => t.cardDetails
    paymentMethod :=
      match paymentMethodId, payment.paymentMethod with
      | some pm, none => some pm
      | _, _ => t.paymentMethod
    status :=
      if pi.status ≠ "" && payment.status ≠ pi.status then pi.status
      else t.status
    receiptUrl :=
      match pi.firstChargeReceiptUrl, payment.receiptUrl with
      | some url, none => some url
      | _, _ => t.receiptUrl
    amount :=
      if pi.amount ≠ 0 && payment.amount = 0 then pi.amount else t.amount }

/-- handlePaymentIntentSucceeded (part_013 variant): extract card
details, look up the Payment by intent id; when absent, recover a
subscription via the intent's invoice or its metadata and create a
complete row; when present, save `backfillPaymentFn` onto it (each guard
of the source reads the found payment's pre-update fields, so the
sequential field updates equal this simultaneous update). -/
def handlePaymentIntentSucceeded (env : StripeEnv) (pi : PaymentIntentPayload)
    (db : DB) : DB :=
  let extracted := extractCardDetailsFromPaymentIntent env pi.id
  let cardDetails := extracted.1
  let paymentMethodId := extracted.2
  match findPaymentByIntentId db pi.id with
  | some payment =>
    updatePayment db pi.id (backfillPaymentFn cardDetails paymentMethodId pi payment)
  | none =>
    let subFromInvoice : Option SubRec :=
      match pi.invoice with
      | none => none
      | some invId =>
        match env.retrieveInvoice invId with
        | none => none
        | some rinv =>
          match rinv.subscription with
          | none => none
          | some sid => findSubByStripeId db sid
    let sub : Option SubRec :=
      match subFromInvoice with
      | some s => some s
      | none =>
        match pi.metadata.subscriptionId with
        | none => none
        | some localId => db.subs.find? (fun s => s.id = localId)
    match sub with
    | none => db
    | some s =>
      let paymentType :=
        match pi.metadata.paymentType with
        | some t => t
        | none =>
          if s.subscriptionType = SubType.initial then "initial_payment"
          else "recurring_payment"
      match paymentCreate db
        { userId := s.userId
          subscriptionId := s.id
          stripePaymentIntentId := pi.id
          stripeInvoiceId := pi.invoice
          amount := pi.amount
          currency := pi.currency
          status := pi.status
          paymentMethod := paymentMethodId
          cardDetails := cardDetails
          paymentType := paymentType
          description := "Payment for subscription"
          receiptUrl := pi.firstChargeReceiptUrl
          failureReason := none
          refunded := false
          refundAmount := 0 } with
      | Except.error _ => db
      | Except.ok db' => db'

/-- handleInvoicePaymentFailed (part_013 variant; part_014 is identical in
its effect on existing rows): resolve the subscription and an identity
key, then either transition the existing row to canceled whenever it is
not already canceled, or create a canceled row with a failure reason; a
duplicate-key error on create is swallowed. -/
def handleInvoicePaymentFailed (env : StripeEnv) (inv : InvoicePayload)
    (db : DB) : DB :=
  match inv.subscription with
  | none => db
  | some sid =>
    match findSubByStripeId db sid with
    | none => db
    | some sub =>
      let finalId :=
        match getInvoicePaymentIntentId env inv with
        | some pid => pid
        | none =>
          match inv.paymentIntent with
          | some pid => pid
          | none => "failed_" ++ inv.id
      let reason := inv.lastFinalizationErrorMessage.getD "Payment failed"
      match findPaymentByIntentId db finalId with
      | some existing =>
        if existing.status ≠ "canceled" then
          updatePayment db finalId (fun q =>
            { q with status := "canceled", failureReason := some reason })
        else db
      | none =>
        match paymentCreate db
          { userId := sub.userId
            subscriptionId := sub.id
            stripePaymentIntentId := finalId
            stripeInvoiceId := some inv.id
            amount := orAmount inv.amountDue 0
            currency := inv.currency.getD "eur"
            status := "canceled"
            paymentMethod := none
            cardDetails := none
            paymentType := "recurring_payment"
            description := "Failed payment for subscription"
            receiptUrl := none
            failureReason := some reason
            refunded := false
            refundAmount := 0 } with
        | Except.error _ => db
        | Except.ok db' => db'

/-! ## Event dispatcher -/

/-- An inbound provider event, tagged by kind. -/
inductive StripeEvent
| checkoutCompleted (s : SessionPayload)
| subscriptionCreated (p : StripeSubPayload)
| subscriptionUpdated (p : StripeSubPayload)
| subscriptionDeleted (p : StripeSubPayload)
| invoicePaymentSucceeded (i : InvoicePayload)
| invoicePaymentFailed (i : InvoicePayload)
| paymentIntentSucceeded (p : PaymentIntentPayload)
| trialWillEnd (p : StripeSubPayload)
| unhandled
deriving DecidableEq, Repr

/-- The switch body of handleStripeWebhook (part_013 variant): dispatch to
the per-kind handler; an error is whatever a handler rethrows. -/
def processEvent (env : StripeEnv) (now : Int) (ev : StripeEvent) (db : DB) :
    Except Unit DB :=
  match ev with
  | StripeEvent.checkoutCompleted s => Except.ok (handleCheckoutSessionCompleted s db)
  | StripeEvent.subscriptionCreated p => handleSubscriptionCreated env now p db
  | StripeEvent.subscriptionUpdated p => handleSubscriptionUpdated env now p db
  | StripeEvent.subscriptionDeleted p => Except.ok (handleSubscriptionDeleted now p db)
  | StripeEvent.invoicePaymentSucceeded i =>
      Except.ok (handleInvoicePaymentSucceeded env now i db)
  | StripeEvent.invoicePaymentFailed i =>
      Except.ok (handleInvoicePaymentFailed env i db)
  | StripeEvent.paymentIntentSucceeded p =>
      Except.ok (handlePaymentIntentSucceeded env p db)
  | StripeEvent.trialWillEnd _ => Except.ok db
  | StripeEvent.unhandled => Except.ok db

/-- handleStripeWebhook: a failed signature verification returns 400
before any processing; otherwise the event is dispatched inside a try
block whose catch answers 500, and success answers 200. -/
def handleStripeWebhook (env : StripeEnv) (now : Int) (sigOk : Bool)
    (ev : StripeEvent) (db : DB) : Nat × DB :=
  if !sigOk then (400, db)
  else
    match processEvent env now ev db with
    | Except.ok db' => (200, db')
    | Except.error _ => (500, db)

/-- Count of Payment rows carrying a given identity key. -/
def countPayments (db : DB) (pid : String) : Nat :=
  (db.payments.filter (fun p => p.stripePaymentIntentId = pid)).length

/-- A single subscription_updated delivery as the dispatcher sees it: a
rethrown handler error is caught there, leaving the stored state as it
was. -/
def applyUpdatedEvent (env : StripeEnv) (now : Int) (db : DB)
    (p : StripeSubPayload) : DB :=
  match handleSubscriptionUpdated env now p db with
  | Except.ok db' => db'
  | Except.error _ => db

/-! ## Concrete fixtures -/

/-- A provider environment whose every call fails. -/
def envNone : StripeEnv :=
  ⟨fun _ => none, fun _ => none, fun _ => none, fun _ => none, fun _ => false⟩

/-- The active initial plan row. -/
def planInitial : PlanRec :=
  ⟨"Initial Plan", SubType.initial, "price_initial", 200, "eur", some "week", 1, true⟩

/-- The active recurring plan row. -/
def planRecurring : PlanRec :=
  ⟨"Weekly Plan", SubType.recurring, "price_recurring", 500, "eur", some "week", 1, true⟩

/-- A user who has never subscribed. -/
def userOne : UserRec := ⟨1, false⟩

/-- A trialing initial-type subscription of userOne with trialEnd at
1000000 ms. -/
def subTrial : SubRec :=
  ⟨0, 1, "sub_1", "cus_1", "price_initial", SubStatus.trialing, 0, 7000000,
    some 100, some 1000000, none, false, true, SubType.initial, 200, "eur",
    some "week", 1⟩

/-- Database holding userOne, their trialing subscription and both plans. -/
def dbTrial : DB := ⟨[userOne], [subTrial], [], [planInitial, planRecurring]⟩

/-! ## Helper lemmas -/

lemma find?_of_filter_singleton {l : List SubRec} {p q : SubRec → Bool}
    {s0 : SubRec} (h : l.filter p = [s0])
    (himp : ∀ s, q s = true → p s = true) :
    l.find? q = if q s0 = true then some s0 else none := by
  induction l with
  | nil => simp at h
  | cons a t ih =>
    rw [List.filter_cons] at h
    by_cases hpa : p a = true
    · simp only [hpa, if_true, List.cons.injEq] at h
      obtain ⟨rfl, hnil⟩ := h
      by_cases hqa : q a = true
      · simp [List.find?_cons, hqa]
      · have hqf : q a = false := by simpa using hqa
        have hnone : t.find? q = none := by
          rw [List.find?_eq_none]
          intro x hx hqx
          have hall : ∀ y ∈ t, ¬ p y = true := by
            simpa [List.filter_eq_nil_iff] using hnil
          exact hall x hx (himp x hqx)
        simp [List.find?_cons, hqf, hnone]
    · have hpf : p a = false := by simpa using hpa
      simp only [hpf, Bool.false_eq_true, if_false] at h
      have hqf : q a = false := by
        by_contra hq
        exact hpa (himp a (by simpa using hq))
      simp only [List.find?_cons, hqf]
      exact ih h

lemma filter_map_of_preserve {α : Type} {l : List α} {g : α → α}
    {p : α → Bool} (hg : ∀ s, p (g s) = p s) :
    (l.map g).filter p = (l.filter p).map g := by
  induction l with
  | nil => simp
  | cons a t ih =>
    simp only [List.map_cons, List.filter_cons, hg a]
    by_cases hpa : p a = true
    · simp [hpa, ih]
    · have hpf : p a = false := by simpa using hpa
      simp [hpf, ih]

lemma checkTrialStatus_trialEnd_none (db : DB) (uid : Nat) (now : Int) :
    (checkTrialStatus db uid now).1.trialEnd = none := by
  unfold checkTrialStatus
  repeat' split
  all_goals rfl

lemma shouldChargeUser_trialEnd_none (db : DB) (uid : Nat) (now : Int) :
    (shouldChargeUser db uid now).1.trialEnd = none := by
  unfold shouldChargeUser
  by_cases h1 : (checkTrialStatus db uid now).1.shouldCharge
  · simp [h1]
  · by_cases h2 : (checkTrialStatus db uid now).1.isInTrial
    · simp [h1, h2, checkTrialStatus_trialEnd_none]
    · simp [h1, h2]

lemma updatedRowFn_stripeId (sub : SubRec) (rp : PlanRec)
    (full p : StripeSubPayload) (t : SubRec) :
    (updatedRowFn sub rp full p t).stripeSubscriptionId =
      t.stripeSubscriptionId := by
  unfold updatedRowFn
  split <;> rfl

lemma updatedRowFn_subType (sub : SubRec) (rp : PlanRec)
    (full p : StripeSubPayload) (t : SubRec) :
    (updatedRowFn sub rp full p t).subscriptionType =
      if sub.subscriptionType = SubType.initial &&
          p.priceId = rp.stripePriceId && p.status = some SubStatus.active then
        SubType.recurring
      else t.subscriptionType := by
  unfold updatedRowFn
  split <;> rfl

/-- Row-level effect of one subscription_updated delivery: every stored
row after the event descends from a row before it with the same stripe
id, recurring rows stay recurring, and an initial row after the event was
already initial before it. -/
lemma applyUpdatedEvent_row_origin (env : StripeEnv) (now : Int)
    (p : StripeSubPayload) (db : DB) :
    ∀ s' ∈ (applyUpdatedEvent env now db p).subs, ∃ s ∈ db.subs,
      s'.stripeSubscriptionId = s.stripeSubscriptionId ∧
      (s.subscriptionType = SubType.recurring →
        s'.subscriptionType = SubType.recurring) ∧
      (s'.subscriptionType = SubType.initial →
        s.subscriptionType = SubType.initial) := by
  intro s' hs'
  unfold applyUpdatedEvent handleSubscriptionUpdated at hs'
  cases hsub : findSubByStripeId db p.id with
  | none =>
    rw [hsub] at hs'
    exact ⟨s', hs', rfl, fun h => h, fun h => h⟩
  | some sub =>
    rw [hsub] at hs'
    cases hrp : getRecurringPlan db with
    | none =>
      rw [hrp] at hs'
      exact ⟨s', hs', rfl, fun h => h, fun h => h⟩
    | some rp =>
      rw [hrp] at hs'
      simp only [updateSubByStripeId, List.mem_map] at hs'
      obtain ⟨s, hmem, hval⟩ := hs'
      by_cases hid : s.stripeSubscriptionId = p.id
      · rw [if_pos hid] at hval
        refine ⟨s, hmem, ?_, ?_, ?_⟩
        · rw [← hval, updatedRowFn_stripeId]
        · intro hrec
          rw [← hval, updatedRowFn_subType]
          split
          · rfl
          · exact hrec
        · intro hinit
          rw [← hval, updatedRowFn_subType] at hinit
          revert hinit
          split
          · intro hinit; cases hinit
          · exact fun h => h
      · rw [if_neg hid] at hval
        exact ⟨s, hmem, by rw [← hval], fun h => hval ▸ h, fun h => hval ▸ h⟩

/-! ## Claims -/

/-- Claim C6: plan policy determinism and fallback.  With no subscription
record and hasEverSubscribed false the decision is initial/new_user;
history alone or the flag alone (absent an active subscription) gives
recurring/returning_user; an active or trialing subscription gives
existing regardless of the flag; and a failing history lookup (either
query) falls back to initial/error_fallback instead of failing the
caller. -/
theorem C6_plan_policy_determinism_and_fallback (db : DB) (u : UserRec) :
    (findActiveSubscription db u.id = none → findAnySubscription db u.id = none →
      u.hasEverSubscribed = false →
      decidePlanForUser db u =
        { planType := "initial", reason := "new_user",
          skipInitial := some false, subscription := none })
    ∧ (findActiveSubscription db u.id = none → findAnySubscription db u.id ≠ none →
      (decidePlanForUser db u).planType = "recurring" ∧
        (decidePlanForUser db u).reason = "returning_user")
    ∧ (findActiveSubscription db u.id = none → u.hasEverSubscribed = true →
      (decidePlanForUser db u).planType = "recurring" ∧
        (decidePlanForUser db u).reason = "returning_user")
    ∧ (∀ s, findActiveSubscription db u.id = some s →
      (decidePlanForUser db u).planType = "existing" ∧
        (decidePlanForUser db u).subscription = some s)
    ∧ (∀ hs anyQ,
      (getRecommendedPlan hs (Except.error ()) anyQ).planType = "initial" ∧
      (getRecommendedPlan hs (Except.error ()) anyQ).reason = "error_fallback" ∧
      (getRecommendedPlan hs (Except.ok none) (Except.error ())).planType = "initial" ∧
      (getRecommendedPlan hs (Except.ok none) (Except.error ())).reason = "error_fallback") := by
  refine ⟨?_, ?_, ?_, ?_, ?_⟩
  · intro hact hany hflag
    simp [decidePlanForUser, getRecommendedPlan, hact, hany, hflag]
  · intro hact hany
    cases hval : findAnySubscription db u.id with
    | none => exact absurd hval hany
    | some s => simp [decidePlanForUser, getRecommendedPlan, hact, hval]
  · intro hact hflag
    cases hval : findAnySubscription db u.id with
    | none => simp [decidePlanForUser, getRecommendedPlan, hact, hval, hflag]
    | some s => simp [decidePlanForUser, getRecommendedPlan, hact, hval]
  · intro s hs
    simp [decidePlanForUser, getRecommendedPlan, hs]
  · intro hs anyQ
    simp [getRecommendedPlan]

/-- Claim C6 witness: a fresh user gets initial, history or the flag give
recurring, an active subscription gives existing, and a failed lookup
falls back to initial. -/
theorem C6_plan_policy_witness :
    decidePlanForUser (⟨[userOne], [], [], []⟩ : DB) userOne =
      { planType := "initial", reason := "new_user",
        skipInitial := some false, subscription := none } ∧
    (decidePlanForUser (⟨[userOne], [⟨0, 1, "sub_1", "cus_1", "p", SubStatus.canceled,
        0, 1, none, none, some 5, false, true, SubType.initial, 200, "eur",
        some "week", 1⟩], [], []⟩ : DB) userOne).planType = "recurring" ∧
    (decidePlanForUser (⟨[⟨1, true⟩], [], [], []⟩ : DB) ⟨1, true⟩).planType = "recurring" ∧
    (decidePlanForUser dbTrial userOne).planType = "existing" ∧
    (getRecommendedPlan false (Except.error ()) (Except.ok none)).planType = "initial" := by
  refine ⟨?_, ?_, ?_, ?_, ?_⟩
  · exact (C6_plan_policy_determinism_and_fallback _ userOne).1
      (by decide) (by decide) (by decide)
  · exact ((C6_plan_policy_determinism_and_fallback _ userOne).2.1
      (by decide) (by decide)).1
  · exact ((C6_plan_policy_determinism_and_fallback _ ⟨1, true⟩).2.2.1
      (by decide) (by decide)).1
  · exact ((C6_plan_policy_determinism_and_fallback dbTrial userOne).2.2.2.1
      subTrial (by decide)).1
  · exact ((C6_plan_policy_determinism_and_fallback (⟨[], [], [], []⟩ : DB)
      userOne).2.2.2.2 false (Except.ok none)).1

/-- Claim C10: the in-trial result of shouldChargeUser never carries the
trial deadline: checkTrialStatus writes no trialEnd field into any of its
result literals, so the trialEnd the in_trial branch copies is always
undefined, whatever the stored subscription's trialEnd is. -/
theorem C10_in_trial_result_has_no_trialEnd (db : DB) (uid : Nat) (now : Int) :
    (checkTrialStatus db uid now).1.trialEnd = none ∧
    ((shouldChargeUser db uid now).1.reason = "in_trial" →
      (shouldChargeUser db uid now).1.trialEnd = none) :=
  ⟨checkTrialStatus_trialEnd_none db uid now,
   fun _ => shouldChargeUser_trialEnd_none db uid now⟩

/-- Claim C10 witness: a user in an active trial (stored trialEnd is
1000000, the clock reads 500000) gets reason in_trial with an undefined
trialEnd. -/
theorem C10_in_trial_witness :
    (shouldChargeUser dbTrial 1 500000).1.reason = "in_trial" ∧
    subTrial.trialEnd = some 1000000 ∧
    (shouldChargeUser dbTrial 1 500000).1.trialEnd = none :=
  ⟨by decide, by decide,
   (C10_in_trial_result_has_no_trialEnd dbTrial 1 500000).2 (by decide)⟩

/-- Claim C7: monotone subscription type under subscription_updated.  If
every stored row with a given stripe id is recurring, it stays recurring
after any sequence of subscription_updated deliveries; and a row that is
initial after a delivery was already initial before it, so the only type
transition the handler performs is initial to recurring.  The handler is
textually identical in both controller variants. -/
theorem C7_subscription_type_monotone (env : StripeEnv) (now : Int)
    (ps : List StripeSubPayload) (db : DB) (key : String)
    (h : ∀ s ∈ db.subs, s.stripeSubscriptionId = key →
      s.subscriptionType = SubType.recurring) :
    (∀ s' ∈ (ps.foldl (applyUpdatedEvent env now) db).subs,
      s'.stripeSubscriptionId = key → s'.subscriptionType = SubType.recurring)
    ∧ (∀ p, ∀ s' ∈ (applyUpdatedEvent env now db p).subs,
      s'.subscriptionType = SubType.initial →
      ∃ s ∈ db.subs, s'.stripeSubscriptionId = s.stripeSubscriptionId ∧
        s.subscriptionType = SubType.initial) := by
  constructor
  · induction ps generalizing db with
    | nil => exact fun s' hs' => h s' hs'
    | cons p ps ih =>
      intro s' hs'
      refine ih (applyUpdatedEvent env now db p) ?_ s' hs'
      intro t ht hkey
      obtain ⟨s, hmem, hid, hrec, _⟩ := applyUpdatedEvent_row_origin env now p db t ht
      exact hrec (h s hmem (hid ▸ hkey))
  · intro p s' hs' hinit
    obtain ⟨s, hmem, hid, _, hback⟩ := applyUpdatedEvent_row_origin env now p db s' hs'
    exact ⟨s, hmem, hid, hback hinit⟩

/-- The trial fixture flipped to recurring. -/
def subRecurring : SubRec := { subTrial with subscriptionType := SubType.recurring }

/-- Database holding the recurring fixture. -/
def dbRecurring : DB := ⟨[userOne], [subRecurring], [], [planInitial, planRecurring]⟩

/-- A subscription_updated payload for sub_1 reporting the initial price
on an active subscription. -/
def pUpd : StripeSubPayload :=
  ⟨"sub_1", "cus_1", "price_initial", "si_1", some SubStatus.active,
    some 1, some 2, none, none, false, none,
    ⟨some 1, SubType.initial, false, false, none, none⟩⟩

/-- The row the update leaves stored. -/
def rowAfterUpd : SubRec :=
  { subRecurring with
    status := SubStatus.active
    currentPeriodStart := 1000
    currentPeriodEnd := 2000 }

/-- Claim C7 witness: applying a concrete subscription_updated delivery
to the recurring fixture leaves the stored sub_1 row recurring. -/
theorem C7_subscription_type_monotone_witness :
    rowAfterUpd ∈ (([pUpd].foldl (applyUpdatedEvent envNone 0)
      dbRecurring).subs) ∧
    rowAfterUpd.stripeSubscriptionId = "sub_1" ∧
    rowAfterUpd.subscriptionType = SubType.recurring :=
  ⟨by decide, by decide,
   (C7_subscription_type_monotone envNone 0 [pUpd] dbRecurring "sub_1"
     (by decide)).1 rowAfterUpd (by decide) (by decide)⟩

/-- Claim C3 counterexample: after the trial of dbTrial's user ends
(trialEnd 1000000, clock 2000000) the first shouldChargeUser call
performs the upgrade and returns shouldCharge true, but the subsequent
call returns reason none — not already_recurring as the claim states —
because the in-place upgrade leaves no initial-type subscription for the
already_recurring branch to ever fire on. -/
theorem C3_trial_boundary_counterexample :
    (shouldChargeUser dbTrial 1 2000000).1.shouldCharge = true ∧
    (shouldChargeUser ((shouldChargeUser dbTrial 1 2000000).2) 1 2000000).1.shouldCharge
      = false ∧
    (shouldChargeUser ((shouldChargeUser dbTrial 1 2000000).2) 1 2000000).1.reason
      = "none" ∧
    (shouldChargeUser ((shouldChargeUser dbTrial 1 2000000).2) 1 2000000).1.reason
      ≠ "already_recurring" := by decide

/-- Claim C3 (amended): for a user whose only subscription is an
initial-type trialing one with trialEnd T, shouldChargeUser before T
returns shouldCharge false with reason in_trial and no state change;
at or after T it commits the (local-only) upgrade and returns
shouldCharge true with reason trial_ended; and any subsequent call
returns shouldCharge false with reason none — not already_recurring —
performing no further change. -/
theorem C3_trial_boundary (db : DB) (uid : Nat) (s0 : SubRec) (rp : PlanRec)
    (T now1 now2 now3 : Int)
    (hfilter : db.subs.filter (fun s => s.userId = uid) = [s0])
    (huid : s0.userId = uid)
    (htype : s0.subscriptionType = SubType.initial)
    (hstatus : s0.status = SubStatus.trialing)
    (hte : s0.trialEnd = some T)
    (hrp : getRecurringPlan db = some rp)
    (h1 : now1 < T) (h2 : T ≤ now2) :
    shouldChargeUser db uid now1 = (⟨false, "in_trial", none, none⟩, db)
    ∧ (shouldChargeUser db uid now2).1.shouldCharge = true
    ∧ (shouldChargeUser db uid now2).1.reason = "trial_ended"
    ∧ ((shouldChargeUser db uid now2).2).subs.filter (fun s => s.userId = uid) =
        [{ s0 with
            subscriptionType := SubType.recurring
            stripePriceId := rp.stripePriceId
            amount := rp.amount
            interval := rp.interval
            isFirstSubscription := false
            trialStart := none
            trialEnd := none }]
    ∧ shouldChargeUser ((shouldChargeUser db uid now2).2) uid now3 =
        (⟨false, "none", none, none⟩, (shouldChargeUser db uid now2).2) := by
  have himp1 : ∀ s : SubRec,
      (s.userId = uid && s.subscriptionType = SubType.initial &&
        (s.status = SubStatus.active || s.status = SubStatus.trialing)) = true →
      (decide (s.userId = uid)) = true := by
    intro s h
    simp only [Bool.and_eq_true] at h
    exact h.1.1
  have himp2 : ∀ s : SubRec,
      (s.userId = uid && s.subscriptionType = SubType.recurring &&
        (s.status = SubStatus.active || s.status = SubStatus.trialing)) = true →
      (decide (s.userId = uid)) = true := by
    intro s h
    simp only [Bool.and_eq_true] at h
    exact h.1.1
  have hfind1 : db.subs.find? (fun s =>
      s.userId = uid && s.subscriptionType = SubType.initial &&
        (s.status = SubStatus.active || s.status = SubStatus.trialing)) = some s0 := by
    rw [find?_of_filter_singleton hfilter himp1, if_pos]
    simp [huid, htype, hstatus]
  have hfind2 : db.subs.find? (fun s =>
      s.userId = uid && s.subscriptionType = SubType.recurring &&
        (s.status = SubStatus.active || s.status = SubStatus.trialing)) = none := by
    rw [find?_of_filter_singleton hfilter himp2, if_neg]
    simp [htype]
  have hcts1 : checkTrialStatus db uid now1 =
      (⟨true, false, "trial_active", none, none⟩, db) := by
    simp only [checkTrialStatus, hfind1, hte]
    rw [if_pos h1]
  have hg : (fun t => ({ t with
      subscriptionType := SubType.recurring
      stripePriceId := rp.stripePriceId
      amount := rp.amount
      interval := rp.interval
      isFirstSubscription := false
      trialStart := none
      trialEnd := none } : SubRec)) s0 = { s0 with
      subscriptionType := SubType.recurring
      stripePriceId := rp.stripePriceId
      amount := rp.amount
      interval := rp.interval
      isFirstSubscription := false
      trialStart := none
      trialEnd := none } := rfl
  have hcts2 : checkTrialStatus db uid now2 =
      (⟨false, true, "upgraded_to_recurring",
          some ⟨true, some rp.amount, rp.interval⟩, none⟩,
        updateSubById db s0.id (fun t => { t with
          subscriptionType := SubType.recurring
          stripePriceId := rp.stripePriceId
          amount := rp.amount
          interval := rp.interval
          isFirstSubscription := false
          trialStart := none
          trialEnd := none })) := by
    simp only [checkTrialStatus, hfind1, hte]
    rw [if_neg (not_lt.mpr h2)]
    simp only [hfind2, upgradeToRecurringSubscriptionTrial, hrp]
  have hfe : (updateSubById db s0.id (fun t => ({ t with
      subscriptionType := SubType.recurring
      stripePriceId := rp.stripePriceId
      amount := rp.amount
      interval := rp.interval
      isFirstSubscription := false
      trialStart := none
      trialEnd := none } : SubRec))).subs.filter (fun s => s.userId = uid) =
      [{ s0 with
          subscriptionType := SubType.recurring
          stripePriceId := rp.stripePriceId
          amount := rp.amount
          interval := rp.interval
          isFirstSubscription := false
          trialStart := none
          trialEnd := none }] := by
    unfold updateSubById
    rw [filter_map_of_preserve (fun s => by
      by_cases h : s.id = s0.id <;> simp [h])]
    rw [hfilter]
    simp
  have hsc2 : (shouldChargeUser db uid now2).2 =
      updateSubById db s0.id (fun t => { t with
        subscriptionType := SubType.recurring
        stripePriceId := rp.stripePriceId
        amount := rp.amount
        interval := rp.interval
        isFirstSubscription := false
        trialStart := none
        trialEnd := none }) := by
    simp [shouldChargeUser, hcts2]
  have hfind3 : ((shouldChargeUser db uid now2).2).subs.find? (fun s =>
      s.userId = uid && s.subscriptionType = SubType.initial &&
        (s.status = SubStatus.active || s.status = SubStatus.trialing)) = none := by
    rw [hsc2, find?_of_filter_singleton hfe himp1, if_neg]
    simp
  have hcts3 : checkTrialStatus ((shouldChargeUser db uid now2).2) uid now3 =
      (⟨false, false, "none", none, none⟩, (shouldChargeUser db uid now2).2) := by
    simp only [checkTrialStatus, hfind3]
  refine ⟨?_, ?_, ?_, ?_, ?_⟩
  · simp [shouldChargeUser, hcts1]
  · simp [shouldChargeUser, hcts2]
  · simp [shouldChargeUser, hcts2]
  · rw [hsc2]
    exact hfe
  · set db2 := (shouldChargeUser db uid now2).2 with hdb2
    simp [shouldChargeUser, hcts3]

/-- Claim C3 witness: the amended boundary behavior on the concrete
trialing database, with the clock at 500000, 2000000 and 3000000 around
the 1000000 trial end. -/
theorem C3_trial_boundary_witness :
    shouldChargeUser dbTrial 1 500000 = (⟨false, "in_trial", none, none⟩, dbTrial)
    ∧ (shouldChargeUser dbTrial 1 2000000).1.reason = "trial_ended"
    ∧ shouldChargeUser ((shouldChargeUser dbTrial 1 2000000).2) 1 3000000 =
        (⟨false, "none", none, none⟩, (shouldChargeUser dbTrial 1 2000000).2) := by
  have h := C3_trial_boundary dbTrial 1 subTrial planRecurring 1000000
    500000 2000000 3000000 (by decide) (by decide) (by decide) (by decide)
    (by decide) (by decide) (by decide) (by decide)
  exact ⟨h.1, h.2.2.1, h.2.2.2.2⟩

/-! ## Further fixtures -/

/-- Subscription metadata of a returning user of id 1. -/
def mdReturning : Metadata := ⟨some 1, SubType.recurring, false, true, none, none⟩

/-- A subscription_created payload for a returning user that carries
provider-computed trial timestamps (seconds 150 and 300). -/
def pReturning : StripeSubPayload :=
  ⟨"sub_9", "cus_9", "price_recurring", "si_9", some SubStatus.trialing,
    some 100, some 200, some 150, some 300, false, none, mdReturning⟩

/-- Database with a returning user (hasEverSubscribed true) and both
plans, and no subscriptions yet. -/
def db8 : DB := ⟨[⟨1, true⟩], [], [], [planInitial, planRecurring]⟩

/-- A subscription_deleted payload for the stored subscription sub_1. -/
def pDel : StripeSubPayload :=
  ⟨"sub_1", "cus_1", "price_initial", "si_1", some SubStatus.canceled,
    some 1, some 2, none, none, false, some 400,
    ⟨some 1, SubType.initial, false, false, none, none⟩⟩

/-- A subscription_created payload whose stripe id collides with the
stored subscription sub_1. -/
def pDup : StripeSubPayload :=
  ⟨"sub_1", "cus_1", "price_initial", "si_1", some SubStatus.trialing,
    some 1, some 2, none, none, false, none,
    ⟨some 1, SubType.initial, true, false, none, none⟩⟩

/-- A provider environment where subscription retrieval and update
succeed. -/
def envOk : StripeEnv :=
  ⟨fun _ => none, fun _ => none, fun _ => none, fun _ => some pDup,
    fun _ => true⟩

/-- Concrete card details. -/
def card1 : CardDetails :=
  ⟨some "visa", some "4242", some 12, some 2030, some "credit", some "DE"⟩

/-- A fully recorded succeeded Payment for intent pi_1. -/
def paySucceeded : PaymentRec :=
  ⟨1, 0, "pi_1", some "in_1", 200, "eur", "succeeded", some "pm_1",
    some card1, "initial_payment", "Payment for subscription", none, none,
    false, 0⟩

/-- Database holding the succeeded payment besides the trial fixture. -/
def dbPay : DB := ⟨[userOne], [subTrial], [paySucceeded], [planInitial, planRecurring]⟩

/-- An invoice.payment_failed payload resolving to intent pi_1. -/
def invFail : InvoicePayload :=
  ⟨"in_1", some "sub_1", some "subscription_cycle", some "pi_1", none,
    none, some 200, some "eur", some "card_declined"⟩

/-! ## More helper lemmas -/

lemma find?_map_of_preserve_gen {α : Type} {l : List α} {g : α → α}
    {p : α → Bool} (hg : ∀ x, p (g x) = p x) :
    (l.map g).find? p = (l.find? p).map g := by
  induction l with
  | nil => simp
  | cons a t ih =>
    by_cases hpa : p a = true
    · have : p (g a) = true := by rw [hg]; exact hpa
      simp [List.find?_cons, hpa, this]
    · have hf : p a = false := by simpa using hpa
      have : p (g a) = false := by rw [hg]; exact hf
      simp [List.find?_cons, hf, this, ih]

/-! ## Claim C5 -/

/-- Claim C5 counterexample: the trial-service upgrade (invoked by
shouldChargeUser) commits the local recurring switch with an empty trace
of provider price swaps — the provider is never called, contradicting
"first calls the provider ... and only then commits"; and the
webhook-controller upgrade, on success, performs the remote swap but
leaves the stored trial fields set instead of nulling them. -/
theorem C5_upgrade_counterexample :
    (upgradeToRecurringSubscriptionTrial dbTrial subTrial).2.2 = [] ∧
    (upgradeToRecurringSubscriptionTrial dbTrial subTrial).1.success = true ∧
    ((upgradeToRecurringSubscriptionTrial dbTrial subTrial).2.1.subs.map
      (fun s => s.subscriptionType)) = [SubType.recurring] ∧
    subTrial.subscriptionType = SubType.initial ∧
    (upgradeToRecurringSubscriptionWebhook envOk subTrial dbTrial).2 =
      [("sub_1", "price_recurring")] ∧
    ((upgradeToRecurringSubscriptionWebhook envOk subTrial dbTrial).1.subs.map
      (fun s => s.trialEnd)) = [some 1000000] := by decide

/-- Claim C5 (amended): the webhook-controller upgrade mutates nothing
and performs no remote swap when the plan is missing, the remote
retrieval fails or the remote update fails (the error is caught, not
rethrown, and nothing is reported to the caller); on success it performs
the remote swap and commits type/price/amount/isFirstSubscription,
leaving trial fields untouched.  The trial-service upgrade never calls
the provider: it reports failure without mutation when the recurring
plan is missing, and otherwise commits the local change (with trial
fields nulled) reporting success to the caller. -/
theorem C5_upgrade_orchestrator (env : StripeEnv) (s : SubRec) (db : DB)
    (rp : PlanRec) :
    (env.retrieveSubscription s.stripeSubscriptionId = none →
      upgradeToRecurringSubscriptionWebhook env s db = (db, []))
    ∧ (env.updateSubscriptionOk s.stripeSubscriptionId = false →
      upgradeToRecurringSubscriptionWebhook env s db = (db, []))
    ∧ (getRecurringPlan db = none →
      upgradeToRecurringSubscriptionWebhook env s db = (db, []))
    ∧ (getRecurringPlan db = some rp →
      (env.retrieveSubscription s.stripeSubscriptionId).isSome = true →
      env.updateSubscriptionOk s.stripeSubscriptionId = true →
      upgradeToRecurringSubscriptionWebhook env s db =
        (updateSubById db s.id (fun t =>
          { t with
            stripePriceId := rp.stripePriceId
            subscriptionType := SubType.recurring
            amount := rp.amount
            isFirstSubscription := false }),
         [(s.stripeSubscriptionId, rp.stripePriceId)]))
    ∧ ((upgradeToRecurringSubscriptionTrial db s).2.2 = [])
    ∧ (getRecurringPlan db = none →
      upgradeToRecurringSubscriptionTrial db s = (⟨false, none, none⟩, db, []))
    ∧ (getRecurringPlan db = some rp →
      upgradeToRecurringSubscriptionTrial db s =
        (⟨true, some rp.amount, rp.interval⟩,
         updateSubById db s.id (fun t =>
           { t with
             subscriptionType := SubType.recurring
             stripePriceId := rp.stripePriceId
             amount := rp.amount
             interval := rp.interval
             isFirstSubscription := false
             trialStart := none
             trialEnd := none }), [])) := by
  refine ⟨?_, ?_, ?_, ?_, ?_, ?_, ?_⟩
  · intro h
    unfold upgradeToRecurringSubscriptionWebhook
    cases hrp : getRecurringPlan db with
    | none => rfl
    | some rp => rw [h]
  · intro h
    unfold upgradeToRecurringSubscriptionWebhook
    cases hrp : getRecurringPlan db with
    | none => rfl
    | some rp =>
      cases hr : env.retrieveSubscription s.stripeSubscriptionId with
      | none => rfl
      | some q => simp [h]
  · intro h
    unfold upgradeToRecurringSubscriptionWebhook
    rw [h]
  · intro hrp hr hok
    obtain ⟨q, hq⟩ := Option.isSome_iff_exists.mp hr
    unfold upgradeToRecurringSubscriptionWebhook
    rw [hrp, hq]
    simp [hok]
  · unfold upgradeToRecurringSubscriptionTrial
    cases hrp : getRecurringPlan db <;> rfl
  · intro h
    unfold upgradeToRecurringSubscriptionTrial
    rw [h]
  · intro hrp
    unfold upgradeToRecurringSubscriptionTrial
    rw [hrp]

/-- Claim C5 witness: concrete instances of the amended behavior — a
failing provider leaves the webhook upgrade inert, a succeeding one
swaps and commits without nulling trials, and the trial-service upgrade
always has an empty provider trace. -/
theorem C5_upgrade_orchestrator_witness :
    upgradeToRecurringSubscriptionWebhook envNone subTrial dbTrial =
      (dbTrial, []) ∧
    upgradeToRecurringSubscriptionWebhook envOk subTrial dbTrial =
      (updateSubById dbTrial subTrial.id (fun t =>
        { t with
          stripePriceId := planRecurring.stripePriceId
          subscriptionType := SubType.recurring
          amount := planRecurring.amount
          isFirstSubscription := false }),
       [("sub_1", "price_recurring")]) ∧
    upgradeToRecurringSubscriptionTrial dbTrial subTrial =
      (⟨true, some planRecurring.amount, planRecurring.interval⟩,
       updateSubById dbTrial subTrial.id (fun t =>
         { t with
           subscriptionType := SubType.recurring
           stripePriceId := planRecurring.stripePriceId
           amount := planRecurring.amount
           interval := planRecurring.interval
           isFirstSubscription := false
           trialStart := none
           trialEnd := none }), []) := by
  have h := C5_upgrade_orchestrator envNone subTrial dbTrial planRecurring
  have h2 := C5_upgrade_orchestrator envOk subTrial dbTrial planRecurring
  refine ⟨h.1 (by decide), ?_, h2.2.2.2.2.2.2 (by decide)⟩
  have := h2.2.2.2.1 (by decide) (by decide) (by decide)
  simpa using this

/-! ## Claim C8 -/

/-- Claim C8 counterexample: in the part_013 controller a
subscription_created event for a returning user (isReturningUser set,
owner's hasEverSubscribed true) with provider trial timestamps 150/300
seconds stores trialStart 150000 and trialEnd 300000 — not null. -/
theorem C8_returning_trial_counterexample :
    pReturning.metadata.isReturningUser = true ∧
    pReturning.trialEndSec = some 300 ∧
    ((handleSubscriptionCreated envNone 0 pReturning db8).toOption.map
      (fun d => d.subs.map (fun s => (s.trialStart, s.trialEnd)))) =
      some [(some 150000, some 300000)] := by decide

/-- Claim C8 (amended): on a resolvable subscription_created event the
part_013 controller stores the provider's trial timestamps unchanged,
returning user or not; only the part_014 controller forces both trial
fields to null when the metadata marks a returning user. -/
theorem C8_returning_user_trial_fields (env : StripeEnv) (now : Int)
    (p : StripeSubPayload) (db : DB) (uid : Nat) (user : UserRec)
    (plan : PlanRec) (st : SubStatus)
    (hm : p.metadata.userId = some uid)
    (hu : findUserById db uid = some user)
    (hp : db.plans.find? (fun pl => pl.stripePriceId = p.priceId) = some plan)
    (hst : p.status = some st)
    (hdup : db.subs.any (fun q => q.stripeSubscriptionId = p.id) = false) :
    ((handleSubscriptionCreated env now p db).toOption.map
      (fun d => d.subs.map (fun s => (s.trialStart, s.trialEnd)))) =
      some (db.subs.map (fun s => (s.trialStart, s.trialEnd)) ++
        [(toDateFromUnix (ensureStripeSubscription env p).trialStartSec,
          toDateFromUnix (ensureStripeSubscription env p).trialEndSec)])
    ∧ (p.metadata.isReturningUser = true →
      ((handleSubscriptionCreatedV14 env now p db).toOption.map
        (fun d => d.subs.map (fun s => (s.trialStart, s.trialEnd)))) =
        some (db.subs.map (fun s => (s.trialStart, s.trialEnd)) ++ [(none, none)])) := by
  constructor
  · unfold handleSubscriptionCreated
    rw [hm]
    simp only [hu, hp, hst]
    unfold subCreate
    rw [hdup]
    simp only [Bool.false_eq_true, if_false, Except.toOption, Option.map_some]
    exact congrArg some (by simp)
  · intro hret
    unfold handleSubscriptionCreatedV14
    rw [hm]
    simp only [hu, hp, hst, hret, if_true]
    unfold subCreate
    rw [hdup]
    simp only [Bool.false_eq_true, if_false, Except.toOption]
    by_cases hflag : user.hasEverSubscribed
    · simp [hflag, Except.toOption]
    · simp [hflag, Except.toOption, updateUser]

/-- Claim C8 witness: the amended statement at the concrete returning
payload — part_013 keeps the provider trial timestamps, part_014 nulls
them. -/
theorem C8_returning_user_trial_fields_witness :
    ((handleSubscriptionCreated envNone 0 pReturning db8).toOption.map
      (fun d => d.subs.map (fun s => (s.trialStart, s.trialEnd)))) =
      some [(some 150000, some 300000)] ∧
    ((handleSubscriptionCreatedV14 envNone 0 pReturning db8).toOption.map
      (fun d => d.subs.map (fun s => (s.trialStart, s.trialEnd)))) =
      some [(none, none)] := by
  have h := C8_returning_user_trial_fields envNone 0 pReturning db8 1 ⟨1, true⟩
    planRecurring SubStatus.trialing (by decide) (by decide) (by decide)
    (by decide) (by decide)
  exact ⟨by simpa using h.1, by simpa using h.2 (by decide)⟩

/-! ## Claim C9 -/

/-- Claim C9 counterexample: in the part_013 controller a
subscription_deleted event on the stored subscription cancels it but
leaves the owning user's hasEverSubscribed at false — the flag update
the claim describes does not happen there. -/
theorem C9_deleted_counterexample :
    ((handleSubscriptionDeleted 5000 pDel dbTrial).users.map
      (fun u => u.hasEverSubscribed)) = [false] ∧
    ((handleSubscriptionDeleted 5000 pDel dbTrial).subs.map
      (fun s => (s.status, s.canceledAt))) = [(SubStatus.canceled, some 5000)] := by
  decide

/-- Claim C9 (amended): on a resolvable subscription_deleted event both
controllers set the row's status to canceled and stamp canceledAt; only
the part_014 controller additionally sets hasEverSubscribed on the
owning user — the part_013 controller leaves the user untouched. -/
theorem C9_subscription_deleted (now : Int) (p : StripeSubPayload) (db : DB)
    (sub : SubRec) (h : findSubByStripeId db p.id = some sub) :
    handleSubscriptionDeleted now p db =
      updateSubByStripeId db p.id (fun t =>
        { t with status := SubStatus.canceled, canceledAt := some now })
    ∧ (handleSubscriptionDeleted now p db).users = db.users
    ∧ (handleSubscriptionDeletedV14 now p db).subs =
      (updateSubByStripeId db p.id (fun t =>
        { t with status := SubStatus.canceled, canceledAt := some now })).subs
    ∧ (∀ user, findUserById db sub.userId = some user →
      ((handleSubscriptionDeletedV14 now p db).users.find?
        (fun u => u.id = sub.userId)).map (fun u => u.hasEverSubscribed) =
        some true) := by
  have h13 : handleSubscriptionDeleted now p db =
      updateSubByStripeId db p.id (fun t =>
        { t with status := SubStatus.canceled, canceledAt := some now }) := by
    unfold handleSubscriptionDeleted
    rw [h]
  refine ⟨h13, by rw [h13]; rfl, ?_, ?_⟩
  · simp only [handleSubscriptionDeletedV14, h]
    cases hfu : findUserById (updateSubByStripeId db p.id (fun t =>
        { t with status := SubStatus.canceled, canceledAt := some now }))
        sub.userId with
    | none => rfl
    | some user =>
      by_cases hflag : user.hasEverSubscribed
      · simp [hflag]
      · simp [hflag, updateUser]
  · intro user huser
    simp only [handleSubscriptionDeletedV14, h]
    have husers : findUserById (updateSubByStripeId db p.id (fun t =>
        { t with status := SubStatus.canceled, canceledAt := some now }))
        sub.userId = some user := huser
    rw [husers]
    have huid : user.id = sub.userId := by
      have := List.find?_some huser
      simpa using this
    by_cases hflag : user.hasEverSubscribed
    · simp only [hflag, Bool.not_true, Bool.false_eq_true, if_false]
      have husers2 : (updateSubByStripeId db p.id (fun t =>
          { t with status := SubStatus.canceled, canceledAt := some now })).users.find?
          (fun u => u.id = sub.userId) = some user := huser
      rw [husers2]
      simp [hflag]
    · simp only [hflag, Bool.not_false, if_true]
      unfold updateUser
      rw [find?_map_of_preserve_gen (fun u => by
        by_cases hid : u.id = sub.userId <;> simp [hid])]
      have husers2 : (updateSubByStripeId db p.id (fun t =>
          { t with status := SubStatus.canceled, canceledAt := some now })).users.find?
          (fun u => u.id = sub.userId) = some user := huser
      rw [husers2]
      simp [huid]

/-- Claim C9 witness: the amended statement at the concrete deletion —
part_013 cancels without touching the user, part_014 sets the flag. -/
theorem C9_subscription_deleted_witness :
    (handleSubscriptionDeleted 5000 pDel dbTrial).users = dbTrial.users ∧
    ((handleSubscriptionDeletedV14 5000 pDel dbTrial).users.find?
      (fun u => u.id = subTrial.userId)).map (fun u => u.hasEverSubscribed) =
      some true := by
  have h := C9_subscription_deleted 5000 pDel dbTrial subTrial (by decide)
  exact ⟨h.2.1, h.2.2.2 userOne (by decide)⟩

/-! ## Claim C2 -/

/-- Claim C2 counterexample: a verified subscription_created delivery
whose stripe id collides with a stored row makes the create rethrow a
duplicate-key error; the dispatcher catches it and responds 500 — not
the 200 the claim states every verified delivery receives. -/
theorem C2_dispatcher_counterexample :
    (handleStripeWebhook envNone 0 true
      (StripeEvent.subscriptionCreated pDup) dbTrial).1 = 500 ∧
    (handleStripeWebhook envNone 0 true
      (StripeEvent.subscriptionCreated pDup) dbTrial).1 ≠ 200 := by decide

/-- Claim C2 (amended): a failed signature verification answers 400
before any processing; with a verified signature the dispatcher never
lets a handler error escape as an exception — it answers 200 on
successful processing and 500 (state left as before the throwing
handler's failed write) when a handler rethrows, so a verified delivery
is answered 200 or 500, not necessarily 200. -/
theorem C2_dispatcher_responses (env : StripeEnv) (now : Int)
    (ev : StripeEvent) (db : DB) :
    handleStripeWebhook env now false ev db = (400, db)
    ∧ (∀ db', processEvent env now ev db = Except.ok db' →
      handleStripeWebhook env now true ev db = (200, db'))
    ∧ (∀ e, processEvent env now ev db = Except.error e →
      handleStripeWebhook env now true ev db = (500, db))
    ∧ ((handleStripeWebhook env now true ev db).1 = 200 ∨
      (handleStripeWebhook env now true ev db).1 = 500) := by
  refine ⟨rfl, ?_, ?_, ?_⟩
  · intro db' hok
    unfold handleStripeWebhook
    rw [hok]
    rfl
  · intro e herr
    unfold handleStripeWebhook
    rw [herr]
    rfl
  · unfold handleStripeWebhook
    cases processEvent env now ev db with
    | ok db' => left; rfl
    | error e => right; rfl

/-- Claim C2 witness: concrete instances — signature failure gives 400, a
benign trial_will_end delivery gives 200, and the duplicate create gives
500. -/
theorem C2_dispatcher_responses_witness :
    handleStripeWebhook envNone 0 false (StripeEvent.trialWillEnd pDel) dbTrial =
      (400, dbTrial) ∧
    handleStripeWebhook envNone 0 true (StripeEvent.trialWillEnd pDel) dbTrial =
      (200, dbTrial) ∧
    handleStripeWebhook envNone 0 true (StripeEvent.subscriptionCreated pDup)
      dbTrial = (500, dbTrial) := by
  have h := C2_dispatcher_responses envNone 0 (StripeEvent.trialWillEnd pDel) dbTrial
  have h2 := C2_dispatcher_responses envNone 0
    (StripeEvent.subscriptionCreated pDup) dbTrial
  exact ⟨h.1, h.2.1 dbTrial rfl, h2.2.2.1 () rfl⟩

/-! ## Claim C4 -/

/-- A payment_intent.succeeded payload for the stored payment pi_1. -/
def piSucceeded : PaymentIntentPayload :=
  ⟨"pi_1", 200, "eur", "succeeded", some "in_1", some "cus_1",
    ⟨some 1, SubType.initial, false, false, none, none⟩, none⟩

lemma backfillPaymentFn_key (cd : Option CardDetails) (pm : Option String)
    (pi : PaymentIntentPayload) (payment t : PaymentRec) :
    (backfillPaymentFn cd pm pi payment t).stripePaymentIntentId =
      t.stripePaymentIntentId := rfl

lemma findPayment_updatePayment (db : DB) (pid K : String)
    (f : PaymentRec → PaymentRec)
    (hf : ∀ t, (f t).stripePaymentIntentId = t.stripePaymentIntentId) :
    findPaymentByIntentId (updatePayment db pid f) K =
      (findPaymentByIntentId db K).map
        (fun t => if t.stripePaymentIntentId = pid then f t else t) := by
  unfold findPaymentByIntentId updatePayment
  exact find?_map_of_preserve_gen (fun t => by
    by_cases hh : t.stripePaymentIntentId = pid <;> simp [hh, hf])

lemma findPayment_key {db : DB} {K : String} {p0 : PaymentRec}
    (h : findPaymentByIntentId db K = some p0) :
    p0.stripePaymentIntentId = K := by
  have := List.find?_some h
  simpa using this

/-- On the not-found branch, handlePaymentIntentSucceeded either leaves
the payments untouched or appends one row keyed by the event's intent
id. -/
lemma handlePaymentIntentSucceeded_create_payments (env : StripeEnv)
    (pi : PaymentIntentPayload) (db : DB)
    (h : findPaymentByIntentId db pi.id = none) :
    (handlePaymentIntentSucceeded env pi db).payments = db.payments ∨
    ∃ row : PaymentRec, row.stripePaymentIntentId = pi.id ∧
      (handlePaymentIntentSucceeded env pi db).payments =
        db.payments ++ [row] := by
  have hany : (db.payments.any
      (fun q => q.stripePaymentIntentId = pi.id)) = false := by
    rw [List.any_eq_false]
    intro x hx
    have := List.find?_eq_none.mp h x hx
    simpa using this
  unfold handlePaymentIntentSucceeded
  simp only [h]
  cases hs : (match pi.invoice with
    | none => none
    | some invId =>
      match env.retrieveInvoice invId with
      | none => none
      | some rinv =>
        match rinv.subscription with
        | none => none
        | some sid => findSubByStripeId db sid) with
  | some s =>
    simp only [paymentCreate, hany, Bool.false_eq_true, if_false]
    right
    exact ⟨_, rfl, rfl⟩
  | none =>
    cases hmeta : pi.metadata.subscriptionId with
    | none => left; rfl
    | some localId =>
      cases hloc : db.subs.find? (fun s => s.id = localId) with
      | none =>
        simp only [hloc]
        exact Or.inl trivial
      | some s =>
        simp only [hloc, paymentCreate, hany, Bool.false_eq_true, if_false]
        right
        exact ⟨_, rfl, rfl⟩

/-- Claim C4 counterexample: the stored payment pi_1 is succeeded with
card details set, yet a subsequent invoice.payment_failed for the same
identity transitions it to canceled — the terminal-succeeded guard the
claim describes does not exist. -/
theorem C4_no_regression_counterexample :
    ((findPaymentByIntentId dbPay "pi_1").map (fun p => p.status)) =
      some "succeeded" ∧
    ((findPaymentByIntentId
      (handleInvoicePaymentFailed envNone invFail dbPay) "pi_1").map
        (fun p => p.status)) = some "canceled" := by decide

/-- Claim C4 (amended): payment_intent.succeeded never nulls a
previously-set cardDetails and, since its payloads carry status
succeeded, never regresses a succeeded status to processing; but
invoice.payment_failed transitions an existing payment to canceled
whenever its status is not already canceled — including when it is
succeeded — preserving only the card details. -/
theorem C4_no_regression_backfill (env : StripeEnv)
    (pi : PaymentIntentPayload) (inv : InvoicePayload) (db : DB) (K : String)
    (p0 : PaymentRec) (c : CardDetails)
    (hfind : findPaymentByIntentId db K = some p0) :
    (p0.cardDetails = some c →
      ((findPaymentByIntentId (handlePaymentIntentSucceeded env pi db) K).map
        (fun q => q.cardDetails)) = some (some c))
    ∧ (p0.status = "succeeded" → pi.status = "succeeded" →
      ((findPaymentByIntentId (handlePaymentIntentSucceeded env pi db) K).map
        (fun q => q.status)) = some "succeeded")
    ∧ (∀ sid sub, inv.subscription = some sid →
      findSubByStripeId db sid = some sub →
      getInvoicePaymentIntentId env inv = some K →
      p0.status ≠ "canceled" →
      ((findPaymentByIntentId (handleInvoicePaymentFailed env inv db) K).map
        (fun q => (q.status, q.cardDetails))) =
        some ("canceled", p0.cardDetails)) := by
  have hp0K : p0.stripePaymentIntentId = K := findPayment_key hfind
  refine ⟨?_, ?_, ?_⟩
  · intro hcd
    by_cases hK : pi.id = K
    · have hfind2 : findPaymentByIntentId db pi.id = some p0 := by
        rw [hK]; exact hfind
      unfold handlePaymentIntentSucceeded
      simp only [hfind2]
      rw [findPayment_updatePayment _ _ _ _ (fun t => backfillPaymentFn_key _ _ _ _ _),
        hfind, Option.map_some']
      rw [if_pos (by rw [hp0K, hK])]
      unfold backfillPaymentFn
      cases (extractCardDetailsFromPaymentIntent env pi.id).1 <;>
        simp [hcd]
    · cases hfind2 : findPaymentByIntentId db pi.id with
      | some q =>
        unfold handlePaymentIntentSucceeded
        simp only [hfind2]
        rw [findPayment_updatePayment _ _ _ _
          (fun t => backfillPaymentFn_key _ _ _ _ _), hfind, Option.map_some']
        rw [if_neg (by rw [hp0K]; exact fun hh => hK hh.symm)]
        simp [hcd]
      | none =>
        rcases handlePaymentIntentSucceeded_create_payments env pi db hfind2 with
          hsame | ⟨row, hrow, happ⟩
        · unfold findPaymentByIntentId
          rw [hsame]
          unfold findPaymentByIntentId at hfind
          rw [hfind]
          simp [hcd]
        · unfold findPaymentByIntentId
          rw [happ, List.find?_append]
          unfold findPaymentByIntentId at hfind
          rw [hfind]
          simp [hcd]
  · intro hst hpis
    by_cases hK : pi.id = K
    · have hfind2 : findPaymentByIntentId db pi.id = some p0 := by
        rw [hK]; exact hfind
      unfold handlePaymentIntentSucceeded
      simp only [hfind2]
      rw [findPayment_updatePayment _ _ _ _ (fun t => backfillPaymentFn_key _ _ _ _ _),
        hfind, Option.map_some']
      rw [if_pos (by rw [hp0K, hK])]
      unfold backfillPaymentFn
      simp [hst, hpis]
    · cases hfind2 : findPaymentByIntentId db pi.id with
      | some q =>
        unfold handlePaymentIntentSucceeded
        simp only [hfind2]
        rw [findPayment_updatePayment _ _ _ _
          (fun t => backfillPaymentFn_key _ _ _ _ _), hfind, Option.map_some']
        rw [if_neg (by rw [hp0K]; exact fun hh => hK hh.symm)]
        simp [hst]
      | none =>
        rcases handlePaymentIntentSucceeded_create_payments env pi db hfind2 with
          hsame | ⟨row, hrow, happ⟩
        · unfold findPaymentByIntentId
          rw [hsame]
          unfold findPaymentByIntentId at hfind
          rw [hfind]
          simp [hst]
        · unfold findPaymentByIntentId
          rw [happ, List.find?_append]
          unfold findPaymentByIntentId at hfind
          rw [hfind]
          simp [hst]
  · intro sid sub hsid hsub hkey hnotc
    unfold handleInvoicePaymentFailed
    rw [hsid]
    simp only [hsub, hkey, hfind]
    rw [if_pos (by simpa using hnotc)]
    rw [findPayment_updatePayment db K K (fun q =>
      { q with
        status := "canceled"
        failureReason :=
          some (inv.lastFinalizationErrorMessage.getD "Payment failed") })
      (fun t => rfl), hfind, Option.map_some']
    simp [hp0K]

/-- Claim C4 witness: on the concrete succeeded payment, a
payment_intent.succeeded redelivery preserves card details and the
succeeded status, while invoice.payment_failed cancels it (keeping the
card details). -/
theorem C4_no_regression_backfill_witness :
    ((findPaymentByIntentId
      (handlePaymentIntentSucceeded envNone piSucceeded dbPay) "pi_1").map
        (fun q => q.cardDetails)) = some (some card1) ∧
    ((findPaymentByIntentId
      (handlePaymentIntentSucceeded envNone piSucceeded dbPay) "pi_1").map
        (fun q => q.status)) = some "succeeded" ∧
    ((findPaymentByIntentId
      (handleInvoicePaymentFailed envNone invFail dbPay) "pi_1").map
        (fun q => (q.status, q.cardDetails))) =
      some ("canceled", some card1) := by
  have h := C4_no_regression_backfill envNone piSucceeded invFail dbPay "pi_1"
    paySucceeded card1 (by decide)
  refine ⟨h.1 (by decide), h.2.1 (by decide) (by decide), ?_⟩
  have h3 := h.2.2 "sub_1" subTrial (by decide) (by decide) (by decide) (by decide)
  simpa using h3

/-! ## Claim C1 -/

/-- The invoice retrieval answer linking invoice in_1 to subscription
sub_1. -/
def rinv1 : RetrievedInvoice := ⟨"in_1", some "sub_1"⟩

/-- A card payment method as retrieved with an expanded intent. -/
def pmObj1 : PaymentMethodObj := ⟨"pm_1", "card", some card1⟩

/-- A provider environment resolving intent pi_1 (with card details) and
invoice in_1. -/
def envFull : StripeEnv :=
  ⟨fun pid => if pid = "pi_1" then some ⟨"pi_1", some pmObj1⟩ else none,
    fun _ => none,
    fun iid => if iid = "in_1" then some rinv1 else none,
    fun _ => none,
    fun _ => false⟩

/-- An invoice.payment_succeeded payload for subscription sub_1 carrying
intent pi_1 and amount 200. -/
def invOk : InvoicePayload :=
  ⟨"in_1", some "sub_1", some "subscription_create", some "pi_1", none,
    some 200, none, some "eur", none⟩

lemma countPayments_zero {db : DB} {K : String} (h : countPayments db K = 0) :
    findPaymentByIntentId db K = none ∧
      db.payments.any (fun q => q.stripePaymentIntentId = K) = false := by
  unfold countPayments at h
  have hfil := List.length_eq_zero.mp h
  have hall := List.filter_eq_nil_iff.mp hfil
  constructor
  · unfold findPaymentByIntentId
    rw [List.find?_eq_none]
    exact hall
  · rw [List.any_eq_false]
    exact hall

lemma upgradeWebhook_payments (env : StripeEnv) (s : SubRec) (db : DB) :
    (upgradeToRecurringSubscriptionWebhook env s db).1.payments = db.payments := by
  unfold upgradeToRecurringSubscriptionWebhook
  cases hrp : getRecurringPlan db with
  | none => rfl
  | some rp =>
    cases hr : env.retrieveSubscription s.stripeSubscriptionId with
    | none => rfl
    | some q =>
      by_cases hok : env.updateSubscriptionOk s.stripeSubscriptionId
      · simp [hok, updateSubById]
      · simp [hok]

lemma upgradeWebhook_findSub_isSome (env : StripeEnv) (s : SubRec) (db : DB)
    (sid : String) :
    (findSubByStripeId (upgradeToRecurringSubscriptionWebhook env s db).1 sid).isSome =
      (findSubByStripeId db sid).isSome := by
  unfold upgradeToRecurringSubscriptionWebhook
  cases hrp : getRecurringPlan db with
  | none => rfl
  | some rp =>
    cases hr : env.retrieveSubscription s.stripeSubscriptionId with
    | none => rfl
    | some q =>
      by_cases hok : env.updateSubscriptionOk s.stripeSubscriptionId
      · simp only [hok, if_true]
        unfold findSubByStripeId updateSubById
        rw [find?_map_of_preserve_gen (fun t => by
          by_cases h : t.id = s.id <;> simp [h])]
        cases db.subs.find? (fun t => t.stripeSubscriptionId = sid) <;> rfl
      · simp [hok]

/-- Claim C1: idempotent payment recording.  For a resolvable invoice
whose payment-intent id is K with no stored Payment under K: delivering
the invoice twice leaves exactly one row under K; delivering the invoice
then the payment_intent (which resolves card details cd) leaves exactly
one row with status succeeded, card details cd and the invoice amount;
delivering them in the opposite order leaves exactly one row with status
succeeded, card details cd and the intent amount; and an
invoice.payment_succeeded delivery is always acknowledged as success —
the duplicate-key path is caught inside the handler, never surfacing as
a dispatcher error. -/
theorem C1_idempotent_payment_recording (env : StripeEnv) (now : Int)
    (inv : InvoicePayload) (pi : PaymentIntentPayload) (db : DB)
    (sid K J : String) (sub : SubRec) (rinv : RetrievedInvoice)
    (cd : CardDetails) (pm : String)
    (h1 : inv.subscription = some sid)
    (h2 : findSubByStripeId db sid = some sub)
    (h3 : getInvoicePaymentIntentId env inv = some K)
    (h4 : pi.id = K)
    (h5 : countPayments db K = 0)
    (h6 : pi.status = "succeeded")
    (h7 : extractCardDetailsFromPaymentIntent env K = (some cd, some pm))
    (h8 : pi.invoice = some J)
    (h9 : env.retrieveInvoice J = some rinv)
    (h10 : rinv.subscription = some sid)
    (hA : orAmount inv.amountPaid (orAmount inv.amountDue 0) ≠ 0) :
    countPayments (handleInvoicePaymentSucceeded env now inv
      (handleInvoicePaymentSucceeded env now inv db)) K = 1
    ∧ countPayments (handlePaymentIntentSucceeded env pi
      (handleInvoicePaymentSucceeded env now inv db)) K = 1
    ∧ (findPaymentByIntentId (handlePaymentIntentSucceeded env pi
        (handleInvoicePaymentSucceeded env now inv db)) K).map
        (fun p => (p.status, p.cardDetails, p.amount)) =
      some ("succeeded", some cd, orAmount inv.amountPaid (orAmount inv.amountDue 0))
    ∧ countPayments (handleInvoicePaymentSucceeded env now inv
      (handlePaymentIntentSucceeded env pi db)) K = 1
    ∧ (findPaymentByIntentId (handleInvoicePaymentSucceeded env now inv
        (handlePaymentIntentSucceeded env pi db)) K).map
        (fun p => (p.status, p.cardDetails, p.amount)) =
      some ("succeeded", some cd, pi.amount)
    ∧ (∀ dbX, processEvent env now (StripeEvent.invoicePaymentSucceeded inv) dbX =
      Except.ok (handleInvoicePaymentSucceeded env now inv dbX)) := by
  subst h4
  obtain ⟨hfindnone, hany⟩ := countPayments_zero h5
  have hfilnil : db.payments.filter
      (fun p => p.stripePaymentIntentId = pi.id) = [] :=
    List.length_eq_zero.mp h5
  -- the first invoice delivery
  have hdb1 : handleInvoicePaymentSucceeded env now inv db =
      (if shouldUpgradeToRecurring sub now then
        (upgradeToRecurringSubscriptionWebhook env sub
          { db with payments := db.payments ++
            [invoiceRow inv sub pi.id (classifyPaymentType inv sub)] }).1
      else { db with payments := db.payments ++
        [invoiceRow inv sub pi.id (classifyPaymentType inv sub)] }) := by
    have hkeyrow : (invoiceRow inv sub pi.id
        (classifyPaymentType inv sub)).stripePaymentIntentId = pi.id := rfl
    unfold handleInvoicePaymentSucceeded
    simp only [h1, h2, h3, hfindnone, paymentCreate, hkeyrow, hany,
      Bool.false_eq_true, if_false]
  have hdb1pay : (handleInvoicePaymentSucceeded env now inv db).payments =
      db.payments ++
      [invoiceRow inv sub pi.id (classifyPaymentType inv sub)] := by
    rw [hdb1]
    split
    · rw [upgradeWebhook_payments]
    · rfl
  have hcount1 : countPayments (handleInvoicePaymentSucceeded env now inv db)
      pi.id = 1 := by
    unfold countPayments
    rw [hdb1pay, List.filter_append, hfilnil]
    simp [invoiceRow]
  have hdb1find : findPaymentByIntentId
      (handleInvoicePaymentSucceeded env now inv db) pi.id =
      some (invoiceRow inv sub pi.id (classifyPaymentType inv sub)) := by
    unfold findPaymentByIntentId
    rw [hdb1pay, List.find?_append]
    unfold findPaymentByIntentId at hfindnone
    rw [hfindnone]
    simp [invoiceRow]
  have hdb1sub_isSome : (findSubByStripeId
      (handleInvoicePaymentSucceeded env now inv db) sid).isSome = true := by
    rw [hdb1]
    split
    · rw [upgradeWebhook_findSub_isSome]
      have hfs : findSubByStripeId { db with payments := db.payments ++
          [invoiceRow inv sub pi.id (classifyPaymentType inv sub)] } sid =
          some sub := h2
      rw [hfs]
      rfl
    · have hfs : findSubByStripeId { db with payments := db.payments ++
          [invoiceRow inv sub pi.id (classifyPaymentType inv sub)] } sid =
          some sub := h2
      rw [hfs]
      rfl
  obtain ⟨sub1, hsub1⟩ := Option.isSome_iff_exists.mp hdb1sub_isSome
  -- redelivering the invoice is a no-op on the state after the first
  have hredeliver : handleInvoicePaymentSucceeded env now inv
      (handleInvoicePaymentSucceeded env now inv db) =
      handleInvoicePaymentSucceeded env now inv db := by
    generalize hgen : handleInvoicePaymentSucceeded env now inv db = db1
      at hsub1 hdb1find
    unfold handleInvoicePaymentSucceeded
    simp only [h1, hsub1, h3, hdb1find]
    rw [if_neg (by simp [invoiceRow])]
  -- the intent delivery after the invoice
  have hpair2 : countPayments (handlePaymentIntentSucceeded env pi
      (handleInvoicePaymentSucceeded env now inv db)) pi.id = 1 ∧
      (findPaymentByIntentId (handlePaymentIntentSucceeded env pi
        (handleInvoicePaymentSucceeded env now inv db)) pi.id).map
        (fun p => (p.status, p.cardDetails, p.amount)) =
      some ("succeeded", some cd,
        orAmount inv.amountPaid (orAmount inv.amountDue 0)) := by
    generalize hgen : handleInvoicePaymentSucceeded env now inv db = db1
      at hdb1find hcount1
    have hdb2 : handlePaymentIntentSucceeded env pi db1 =
        updatePayment db1 pi.id (backfillPaymentFn (some cd) (some pm) pi
          (invoiceRow inv sub pi.id (classifyPaymentType inv sub))) := by
      unfold handlePaymentIntentSucceeded
      simp only [h7, hdb1find]
    constructor
    · rw [hdb2]
      unfold countPayments updatePayment
      rw [filter_map_of_preserve (fun t => by
        by_cases h : t.stripePaymentIntentId = pi.id <;>
          simp [h, backfillPaymentFn_key])]
      rw [List.length_map]
      exact hcount1
    · rw [hdb2]
      rw [findPayment_updatePayment _ _ _ _
        (fun t => backfillPaymentFn_key _ _ _ _ _), hdb1find, Option.map_some']
      rw [if_pos (show (invoiceRow inv sub pi.id
        (classifyPaymentType inv sub)).stripePaymentIntentId = pi.id from rfl)]
      unfold backfillPaymentFn invoiceRow
      simp [h6, hA]
  -- the intent delivery first
  have hstep3 : handlePaymentIntentSucceeded env pi db =
      { db with payments := db.payments ++
        [{ userId := sub.userId
           subscriptionId := sub.id
           stripePaymentIntentId := pi.id
           stripeInvoiceId := pi.invoice
           amount := pi.amount
           currency := pi.currency
           status := pi.status
           paymentMethod := some pm
           cardDetails := some cd
           paymentType :=
             match pi.metadata.paymentType with
             | some t => t
             | none =>
               if sub.subscriptionType = SubType.initial then "initial_payment"
               else "recurring_payment"
           description := "Payment for subscription"
           receiptUrl := pi.firstChargeReceiptUrl
           failureReason := none
           refunded := false
           refundAmount := 0 }] } := by
    unfold handlePaymentIntentSucceeded
    simp only [h7, hfindnone, h8, h9, h10, h2, paymentCreate, hany,
      Bool.false_eq_true, if_false]
  have hdb3subs : findSubByStripeId (handlePaymentIntentSucceeded env pi db)
      sid = some sub := by
    rw [hstep3]
    exact h2
  have hdb3find : findPaymentByIntentId (handlePaymentIntentSucceeded env pi db)
      pi.id = some
      { userId := sub.userId
        subscriptionId := sub.id
        stripePaymentIntentId := pi.id
        stripeInvoiceId := pi.invoice
        amount := pi.amount
        currency := pi.currency
        status := pi.status
        paymentMethod := some pm
        cardDetails := some cd
        paymentType :=
          match pi.metadata.paymentType with
          | some t => t
          | none =>
            if sub.subscriptionType = SubType.initial then "initial_payment"
            else "recurring_payment"
        description := "Payment for subscription"
        receiptUrl := pi.firstChargeReceiptUrl
        failureReason := none
        refunded := false
        refundAmount := 0 } := by
    rw [hstep3]
    unfold findPaymentByIntentId
    rw [List.find?_append]
    unfold findPaymentByIntentId at hfindnone
    rw [hfindnone]
    simp
  have hredeliver3 : handleInvoicePaymentSucceeded env now inv
      (handlePaymentIntentSucceeded env pi db) =
      handlePaymentIntentSucceeded env pi db := by
    generalize hgen : handlePaymentIntentSucceeded env pi db = db3
      at hdb3subs hdb3find
    unfold handleInvoicePaymentSucceeded
    simp only [h1, hdb3subs, h3, hdb3find]
    rw [if_neg (by simp [h8])]
  have hcount3 : countPayments (handlePaymentIntentSucceeded env pi db)
      pi.id = 1 := by
    rw [hstep3]
    unfold countPayments
    rw [List.filter_append, hfilnil]
    simp
  refine ⟨?_, ?_, ?_, ?_, ?_, fun dbX => rfl⟩
  · rw [hredeliver]
    exact hcount1
  · exact hpair2.1
  · exact hpair2.2
  · rw [hredeliver3]
    exact hcount3
  · rw [hredeliver3]
    rw [hdb3find, Option.map_some', h6]

/-- Claim C1 witness: the idempotency scenario on the concrete fixture —
the invoice and intent deliveries for pi_1 in either order, and a
duplicate invoice delivery, all leave exactly one fully populated row. -/
theorem C1_idempotent_payment_recording_witness :
    countPayments (handleInvoicePaymentSucceeded envFull 500000 invOk
      (handleInvoicePaymentSucceeded envFull 500000 invOk dbTrial)) "pi_1" = 1
    ∧ (findPaymentByIntentId (handlePaymentIntentSucceeded envFull piSucceeded
        (handleInvoicePaymentSucceeded envFull 500000 invOk dbTrial)) "pi_1").map
        (fun p => (p.status, p.cardDetails, p.amount)) =
      some ("succeeded", some card1, 200)
    ∧ (findPaymentByIntentId (handleInvoicePaymentSucceeded envFull 500000 invOk
        (handlePaymentIntentSucceeded envFull piSucceeded dbTrial)) "pi_1").map
        (fun p => (p.status, p.cardDetails, p.amount)) =
      some ("succeeded", some card1, 200) := by
  have h := C1_idempotent_payment_recording envFull 500000 invOk piSucceeded
    dbTrial "sub_1" "pi_1" "in_1" subTrial rinv1 card1 "pm_1"
    (by decide) (by decide) (by decide) (by decide) (by decide) (by decide)
    (by decide) (by decide) (by decide) (by decide) (by decide)
  exact ⟨h.1, h.2.2.1, h.2.2.2.2.1⟩

end Ghostsnap
